import Mathlib

/-!
# Flight-controller stabilisation core

A shallow embedding of `flightcontroller/src/flight_controller.cpp` and
`flightcontroller/src/imu.cpp`.

Conventions of the embedding:

* `float`/`double` values are exact rationals (`ℚ`): rounding, infinities and
  NaN are outside the model.
* `int` values are `Int`, `long` clock readings are `Int`.
* `Eigen::Vector3f` / four-motor vectors are functions on `Fin 3` / `Fin 4`.
* Member functions become functions on explicit state records.
* `log(msg)` appends the message to a list of lines.
* The headers `fc_config.hpp`, `drone.hpp`, `imu.hpp`, `kalman.hpp` are not part
  of the sources: configuration constants are fields of `Config`, the `Drone`
  record carries the members the controller touches, and the Kalman filter
  class and the libm functions are parameters.
-/

namespace Robotica

/-- Three-component vector (`Eigen::Vector3f`). -/
abbrev Vec3 := Fin 3 → ℚ

/-- Four motor commands. -/
abbrev Vec4 := Fin 4 → ℚ

/-- The constants of namespace `fc_config` read by the controller.
`pidX 0` is `KP`, `pidX 1` is `KD`. -/
structure Config where
  MIN_THRUST : ℚ
  MAX_THRUST : ℚ
  masterGain : ℚ
  pidRoll : Fin 2 → ℚ
  pidPitch : Fin 2 → ℚ
  pidHeading : Fin 2 → ℚ
  pidHeight : Fin 2 → ℚ
  maxRollRotationalVel : ℚ
  maxPitchRotationalVel : ℚ
  maxYawRotationalVel : ℚ
  maxDownSpeed : ℚ
  maxUpSpeed : ℚ
  maxDownAcceleration : ℚ
  safetyHeight : ℚ
  landingPrecision : ℚ

/-- The members of the `Drone` singleton used by the controller.
`height`, `zSpeed` and `position` are what `getHeight()`, `getZSpeed()` and
`getPosition()` return; `thrustOut` is the last vector given to `setThrust`;
`retractLog` lists the arguments of the `setRetracts` calls, oldest first. -/
structure Drone where
  height : ℚ
  zSpeed : ℚ
  position : Vec3
  distanceToLandingSpot : ℚ
  gearUp : Bool
  gearRaiseHeight : ℚ
  gearLowerHeight : ℚ
  t00 : Vec4
  motorRotationSigns : Fin 4 → Int
  referenceAttitude : Vec3
  referenceRotationalVel : Vec3
  referenceVelocity : Vec3
  referencePosition : Vec3
  holdPosition : Vec3
  thrustOut : Vec4
  retractLog : List Bool

/-- The `std::map<std::string, float> pidGains`, one slot per key in use. -/
structure PidGains where
  Roll : ℚ
  Pitch : ℚ
  Heading : ℚ
  Height : ℚ

/-- The data members of `FlightController`, and the lines written by `log`. -/
structure FlightController where
  thrust : Vec4
  pidGains : PidGains
  navMode : String
  log : List String

/-- What the controller reads from the `imu` singleton. -/
structure ImuReadings where
  angles : Vec3
  rotational_velocity : Vec3
  acceleration : Vec3

/-- The zero vector `Eigen::Vector3f::Zero(3)`. -/
def Vec3.zero : Vec3 := fun _ => 0

/-- Macro `log(msg)`. -/
def FlightController.logLine (fc : FlightController) (msg : String) : FlightController :=
  { fc with log := fc.log ++ [msg] }

/-- First loop of `updateReferenceThrust`, body for index `i`: a sign other
than `1` and `-1` is reported. -/
def checkSign (signs : Fin 4 → Int) (fc : FlightController) (i : Fin 4) : FlightController :=
  if signs i ≠ 1 ∧ signs i ≠ -1 then
    fc.logLine "Incorrect signs for updateReferenceThrust!"
  else fc

/-- Second loop of `updateReferenceThrust`, body for index `i`:
`thrust[i] *= (1 + gain * signs[i])`, then the two-sided bound test. -/
def scaleMotor (cfg : Config) (gain : ℚ) (signs : Fin 4 → Int) (thrust : Vec4) (i : Fin 4) :
    Vec4 :=
  let thrust1 := Function.update thrust i (thrust i * (1 + gain * (signs i : ℚ)))
  if thrust1 i > cfg.MAX_THRUST then
    Function.update thrust1 i cfg.MAX_THRUST
  else if thrust1 i < cfg.MIN_THRUST then
    Function.update thrust1 i cfg.MIN_THRUST
  else thrust1

/-- The function `FlightController::updateReferenceThrust(float gain, int signs[])`. -/
def updateReferenceThrust (cfg : Config) (gain : ℚ) (signs : Fin 4 → Int)
    (fc : FlightController) : FlightController :=
  let fc1 := [0, 1, 2, 3].foldl (checkSign signs) fc
  { fc1 with thrust := [0, 1, 2, 3].foldl (scaleMotor cfg gain signs) fc1.thrust }

/-- Clamping to the interval `[lo, hi]`, as the specification words it. -/
def clamp (x lo hi : ℚ) : ℚ := max lo (min x hi)

/-- Membership of a motor command in `[MIN_THRUST, MAX_THRUST]`. -/
def inBounds (cfg : Config) (x : ℚ) : Prop := cfg.MIN_THRUST ≤ x ∧ x ≤ cfg.MAX_THRUST

instance (cfg : Config) (x : ℚ) : Decidable (inBounds cfg x) := by
  unfold inBounds; infer_instance

/-- The controller states after each call of a sequence of
`updateReferenceThrust` calls. -/
def updateTrace (cfg : Config) : List (ℚ × (Fin 4 → Int)) → FlightController →
    List FlightController
  | [], _ => []
  | c :: cs, fc =>
    let fc1 := updateReferenceThrust cfg c.1 c.2 fc
    fc1 :: updateTrace cfg cs fc1

/-- Bound test of `scaleMotor`, as a function of the scaled value. -/
def bound (cfg : Config) (t : ℚ) : ℚ :=
  if t > cfg.MAX_THRUST then cfg.MAX_THRUST
  else if t < cfg.MIN_THRUST then cfg.MIN_THRUST
  else t

/-! ## Reference accessors -/

/-- The function `FlightController::getDifferenceAttitude`. -/
def getDifferenceAttitude (d : Drone) (imu : ImuReadings) : Vec3 :=
  fun i => d.referenceAttitude i - imu.angles i

/-- The function `FlightController::getDifferenceRotationalVel`. -/
def getDifferenceRotationalVel (d : Drone) (imu : ImuReadings) : Vec3 :=
  fun i => d.referenceRotationalVel i - imu.rotational_velocity i

/-- The function `FlightController::setReferenceRotationalVel`. -/
def setReferenceRotationalVel (newRefRotVel : Vec3) (d : Drone) : Drone :=
  { d with referenceRotationalVel := newRefRotVel }

/-- The local `diffSpeed` that `FlightController::getDifferenceVel` builds.
The function ends without a `return`, so what a caller receives is not
determined by the source; callers below take that value as an argument. -/
def getDifferenceVel_diffSpeed (d : Drone) : Vec3 :=
  Function.update d.referenceVelocity 2 (d.referenceVelocity 2 - d.zSpeed)

/-- The function `FlightController::setReferenceVel`. -/
def setReferenceVel (newRefSpeed : Vec3) (d : Drone) : Drone :=
  { d with referenceVelocity := newRefSpeed }

/-- The function `FlightController::setReferencePosition`. -/
def setReferencePosition (newPos : Vec3) (d : Drone) : Drone :=
  { d with referencePosition := newPos }

/-- Modelled from the spec: `Drone::setRetracts` of `drone.hpp`, the boolean
gear-retract command of the actuation sink.  The gear flag becomes `b` and the
command is recorded. -/
def Drone.setRetracts (d : Drone) (b : Bool) : Drone :=
  { d with gearUp := b, retractLog := d.retractLog ++ [b] }

/-- Modelled from the spec: `Drone::setThrust` of `drone.hpp`, the four-element
thrust command of the actuation sink. -/
def Drone.setThrust (d : Drone) (thrust : Vec4) : Drone :=
  { d with thrustOut := thrust }

/-- The function `FlightController::setHoldPosition`. -/
def setHoldPosition (cfg : Config) (newPosition : Vec3) (d : Drone) : Drone :=
  let d1 := { d with holdPosition := newPosition }
  if d1.holdPosition 2 < cfg.safetyHeight then
    { d1 with holdPosition := Function.update d1.holdPosition 2 cfg.safetyHeight }
  else d1

/-! ## Per-axis control updates -/

/-- The function `FlightController::headingPID`. -/
def headingPID (cfg : Config) (d : Drone) (diffAtt diffRotationalVelocity : Vec3)
    (fc : FlightController) : FlightController :=
  let KP := cfg.pidHeading 0
  let KD := cfg.pidHeading 1
  let gain := diffAtt 2 * KP + diffRotationalVelocity 2 * KD
  let gain := gain * cfg.masterGain
  let fc := { fc with pidGains := { fc.pidGains with Heading := gain } }
  if gain > 0 ∧ diffRotationalVelocity 2 ≤ cfg.maxYawRotationalVel then
    updateReferenceThrust cfg gain d.motorRotationSigns (fc.logLine "Turn-R")
  else if gain < 0 ∧ diffRotationalVelocity 2 ≥ -cfg.maxYawRotationalVel then
    updateReferenceThrust cfg gain d.motorRotationSigns (fc.logLine "Turn-L")
  else
    fc.logLine "Heading out of bounds set by maxYawRotationalVel"

/-- The function `FlightController::rollPID`. -/
def rollPID (cfg : Config) (diffAtt diffRotationalVelocity : Vec3)
    (fc : FlightController) : FlightController :=
  let KP := cfg.pidRoll 0
  let KD := cfg.pidRoll 1
  let gain := diffAtt 0 * KP + diffRotationalVelocity 0 * KD
  let gain := gain * cfg.masterGain
  let fc := { fc with pidGains := { fc.pidGains with Roll := gain } }
  let signs : Fin 4 → Int := ![1, -1, -1, 1]
  if gain > 0 ∧ diffRotationalVelocity 0 ≤ cfg.maxRollRotationalVel then
    updateReferenceThrust cfg gain signs (fc.logLine "Roll-R")
  else if gain < 0 ∧ diffRotationalVelocity 0 ≥ -cfg.maxRollRotationalVel then
    updateReferenceThrust cfg gain signs (fc.logLine "Roll-L")
  else
    fc.logLine "Roll out of bounds set by maxRollRotationalVel"

/-- The function `FlightController::pitchPID`. -/
def pitchPID (cfg : Config) (diffAtt diffRotationalVelocity : Vec3)
    (fc : FlightController) : FlightController :=
  let KP := cfg.pidPitch 0
  let KD := cfg.pidPitch 1
  let gain := diffAtt 1 * KP + diffRotationalVelocity 1 * KD
  let gain := gain * cfg.masterGain
  let fc := { fc with pidGains := { fc.pidGains with Pitch := gain } }
  let signs : Fin 4 → Int := ![-1, -1, 1, 1]
  if gain > 0 ∧ diffRotationalVelocity 1 ≤ cfg.maxPitchRotationalVel then
    updateReferenceThrust cfg gain signs (fc.logLine "Forward")
  else if gain < 0 ∧ diffRotationalVelocity 1 ≥ -cfg.maxPitchRotationalVel then
    updateReferenceThrust cfg gain signs (fc.logLine "Backward")
  else
    fc.logLine "Pitch out of bounds set by maxPitchRotationalVel"

/-- The function `FlightController::heightPID`. -/
def heightPID (cfg : Config) (d : Drone) (imu : ImuReadings)
    (absoluteDirection differenceVelocity : Vec3) (fc : FlightController) : FlightController :=
  let KP := cfg.pidHeight 0
  let KD := cfg.pidHeight 1
  let gain := absoluteDirection 2 * KP + differenceVelocity 2 * KD
  let r : ℚ × FlightController :=
    if d.height < cfg.safetyHeight ∧ d.distanceToLandingSpot > cfg.landingPrecision then
      (KP * (cfg.safetyHeight - d.height), fc.logLine "Below safety height!")
    else (gain, fc)
  let gain := r.1 * cfg.masterGain
  let fc := { r.2 with pidGains := { r.2.pidGains with Height := gain } }
  let signs : Fin 4 → Int := ![1, 1, 1, 1]
  if d.zSpeed ≤ -cfg.maxDownSpeed ∨
      (imu.acceleration 2 ≤ -cfg.maxDownAcceleration ∧ d.zSpeed < 0) then
    let gain := |gain|
    updateReferenceThrust cfg gain signs (fc.logLine "Moving down too fast")
  else if d.zSpeed ≤ cfg.maxUpSpeed then
    if gain > 0 then
      updateReferenceThrust cfg gain signs (fc.logLine "Up")
    else if gain < 0 ∧ d.zSpeed ≥ -cfg.maxDownSpeed then
      updateReferenceThrust cfg gain signs (fc.logLine "Down")
    else fc
  else fc

/-- The condition of the first `if` of `heightPID`: below the safety height and
not within landing precision. -/
def belowSafety (cfg : Config) (d : Drone) : Prop :=
  d.height < cfg.safetyHeight ∧ d.distanceToLandingSpot > cfg.landingPrecision

instance (cfg : Config) (d : Drone) : Decidable (belowSafety cfg d) := by
  unfold belowSafety; infer_instance

/-- The condition of the "Moving down too fast" branch of `heightPID`. -/
def movingDownTooFast (cfg : Config) (d : Drone) (imu : ImuReadings) : Prop :=
  d.zSpeed ≤ -cfg.maxDownSpeed ∨ (imu.acceleration 2 ≤ -cfg.maxDownAcceleration ∧ d.zSpeed < 0)

instance (cfg : Config) (d : Drone) (imu : ImuReadings) :
    Decidable (movingDownTooFast cfg d imu) := by
  unfold movingDownTooFast; infer_instance

/-! ## Navigation modes and the control loop -/

/-- The function `FlightController::hold`.  `cos` is the libm cosine and
`diffVelocity` the value received from `getDifferenceVel()`. -/
def hold (cfg : Config) (cos : ℚ → ℚ) (imu : ImuReadings) (diffVelocity : Vec3)
    (d : Drone) (fc : FlightController) : Drone × FlightController :=
  let fc := { fc with thrust := fun i => d.t00 i / (cos (imu.angles 0) * cos (imu.angles 1)) }
  let d := { d with referenceAttitude := Vec3.zero }
  let diffAtt := getDifferenceAttitude d imu
  let diffRotationalVel := getDifferenceRotationalVel d imu
  let absDirection := Vec3.zero
  let fc := rollPID cfg diffAtt diffRotationalVel fc
  let fc := pitchPID cfg diffAtt diffRotationalVel fc
  (d, heightPID cfg d imu absDirection diffVelocity fc)

/-- The function `FlightController::land`. -/
def land (d : Drone) (fc : FlightController) : Drone × FlightController := (d, fc)

/-- The function `FlightController::actuate`. -/
def actuate (cfg : Config) (cos : ℚ → ℚ) (imu : ImuReadings) (diffVelocity : Vec3)
    (d : Drone) (fc : FlightController) : Drone × FlightController :=
  if fc.navMode = "Hold" then hold cfg cos imu diffVelocity d fc
  else if fc.navMode = "Land" then land d fc
  else (d, fc)

/-- The landing-gear statement of `FlightController::run`. -/
def gearStep (d : Drone) : Drone :=
  if d.height > d.gearRaiseHeight ∧ !d.gearUp then d.setRetracts true
  else if d.height < d.gearLowerHeight ∧ d.gearUp then d.setRetracts false
  else d

/-- One iteration of the `while (true)` loop of `FlightController::run`. -/
def runIteration (cfg : Config) (cos : ℚ → ℚ) (imu : ImuReadings) (diffVelocity : Vec3)
    (d : Drone) (fc : FlightController) : Drone × FlightController :=
  let r := actuate cfg cos imu diffVelocity d fc
  let d := gearStep r.1
  (d.setThrust r.2.thrust, r.2)

/-- The drone states after each landing-gear step, when the height sensor reads
the given heights in turn. -/
def gearTrace : List ℚ → Drone → List Drone
  | [], _ => []
  | h :: hs, d =>
    let d1 := gearStep { d with height := h }
    d1 :: gearTrace hs d1

/-- The constructor `FlightController::FlightController`. -/
def FlightController.new (thrust : Vec4) (d : Drone) : Drone × FlightController :=
  (d.setRetracts false,
   { thrust := thrust, pidGains := ⟨0, 0, 0, 0⟩, navMode := "Hold", log := [] })

/-! ## Attitude estimator (`imu.cpp`) -/

/-- The constant `PI`. -/
def PI : ℚ := 31415926535897 / 10000000000000

/-- The constant `RAD_TO_DEG`. -/
def RAD_TO_DEG : ℚ := 180 / PI

/-- The function `millis`, applied to the reading `micros()` gives it. -/
def millis (micros : Int) : Int := Int.tdiv micros 1000

/-- The two member functions of class `Kalman` (header `kalman.hpp`) that the
estimator calls, over a filter state `K`.  `getAngle k newAngle newRate dt`
gives the filtered angle and the next filter state. -/
structure KalmanOps (K : Type) where
  setAngle : K → ℚ → K
  getAngle : K → ℚ → ℚ → ℚ → ℚ × K

/-- The libm functions the estimator and the controller call. -/
structure Libm where
  atan : ℚ → ℚ
  atan2 : ℚ → ℚ → ℚ
  sqrt : ℚ → ℚ
  cos : ℚ → ℚ

/-- The values that one successful 14-byte bus read leaves in the members
`accX` ... `gyroZ` (lines 83-89 of `imu.cpp`). -/
structure Sample where
  accX : ℚ
  accY : ℚ
  accZ : ℚ
  tempRaw : ℚ
  gyroX : ℚ
  gyroY : ℚ
  gyroZ : ℚ

/-- The data members of class `imu`.  `speed` is the storage of the
`Eigen::Vector3f speed` seen through `operator[]`: cells `0`, `1`, `2` are the
vector, larger indices lie past its end. -/
structure Imu (K : Type) where
  calibrated : Bool
  start_t : Int
  yawOffset : ℚ
  timer : Int
  accX : ℚ
  accY : ℚ
  accZ : ℚ
  tempRaw : ℚ
  gyroX : ℚ
  gyroY : ℚ
  gyroZ : ℚ
  kalmanX : K
  kalmanY : K
  kalAngleX : ℚ
  kalAngleY : ℚ
  gyroXangle : ℚ
  gyroYangle : ℚ
  gyroZangle : ℚ
  compAngleX : ℚ
  compAngleY : ℚ
  speed : Nat → ℚ

/-- The constructor `imu::imu`, after the identity check has passed, applied to
the zero-initialised static instance `st`.  `s` is the first 6-byte read,
`us1` the reading of `micros()` on line 76 and `us2` the one inside `millis()`
on line 77. -/
def Imu.init {K : Type} (ops : KalmanOps K) (m : Libm) (s : Sample) (us1 us2 : Int)
    (st : Imu K) : Imu K :=
  let st := { st with calibrated := false, start_t := 0, yawOffset := 0 }
  let st := { st with accX := s.accX, accY := s.accY, accZ := s.accZ }
  let roll := m.atan (st.accY / m.sqrt (st.accX * st.accX + st.accZ * st.accZ)) * RAD_TO_DEG
  let pitch := m.atan2 (-st.accX) st.accZ * RAD_TO_DEG
  let st := { st with kalmanX := ops.setAngle st.kalmanX roll }
  let st := { st with kalmanY := ops.setAngle st.kalmanY pitch }
  let st := { st with gyroXangle := roll, gyroYangle := pitch }
  let st := { st with compAngleX := roll, compAngleY := pitch }
  { st with timer := us1, start_t := millis us2 }

/-- Lines 83-89 of `imu::poll`: the sample is stored in the members. -/
@[simps]
def Imu.readSample {K : Type} (s : Sample) (st : Imu K) : Imu K :=
  { st with accX := s.accX, accY := s.accY, accZ := s.accZ, tempRaw := s.tempRaw,
            gyroX := s.gyroX, gyroY := s.gyroY, gyroZ := s.gyroZ }

/-- Line 92 of `imu::poll`: `timer = micros()`. -/
@[simps]
def Imu.setTimer {K : Type} (us : Int) (st : Imu K) : Imu K :=
  { st with timer := us }

/-- Lines 102-108 of `imu::poll`: the wrap guard on pitch, else the Kalman update
of the pitch filter. -/
def Imu.pitchStep {K : Type} (ops : KalmanOps K) (pitch gyroYrate dt : ℚ) (st : Imu K) :
    Imu K :=
  if (pitch < -90 ∧ st.kalAngleY > 90) ∨ (pitch > 90 ∧ st.kalAngleY < -90) then
    { st with kalmanY := ops.setAngle st.kalmanY pitch, compAngleY := pitch,
              kalAngleY := pitch, gyroYangle := pitch }
  else
    let r := ops.getAngle st.kalmanY pitch gyroYrate dt
    { st with kalAngleY := r.1, kalmanY := r.2 }

/-- Line 113 of `imu::poll`: the Kalman update of the roll filter. -/
@[simps]
def Imu.rollStep {K : Type} (ops : KalmanOps K) (roll gyroXrate dt : ℚ) (st : Imu K) :
    Imu K :=
  { st with kalAngleX := (ops.getAngle st.kalmanX roll gyroXrate dt).1,
            kalmanX := (ops.getAngle st.kalmanX roll gyroXrate dt).2 }

/-- Lines 115-117 of `imu::poll`: gyro integration without any filter. -/
@[simps]
def Imu.integrateGyro {K : Type} (gyroXrate gyroYrate gyroZrate dt : ℚ) (st : Imu K) :
    Imu K :=
  { st with gyroXangle := st.gyroXangle + gyroXrate * dt,
            gyroYangle := st.gyroYangle + gyroYrate * dt,
            gyroZangle := st.gyroZangle + (gyroZrate * dt - st.yawOffset * dt) }

/-- The statement `speed[i] += a` on the storage of the velocity vector. -/
@[simps]
def Imu.addSpeed {K : Type} (i : Nat) (a : ℚ) (st : Imu K) : Imu K :=
  { st with speed := Function.update st.speed i (st.speed i + a) }

/-- Lines 119-121 of `imu::poll`: `speed[1]`, `speed[2]` and `speed[3]` are
incremented, in that order. -/
def Imu.integrateSpeed {K : Type} (dt : ℚ) (st : Imu K) : Imu K :=
  let st := st.addSpeed 1 (st.accX * dt)
  let st := st.addSpeed 2 (st.accY * dt)
  st.addSpeed 3 ((st.accZ - 981 / 100) * dt)

/-- Lines 124-128 of `imu::poll`: the yaw offset is determined; `us` is the
reading of `micros()` inside `millis()`. -/
def Imu.calibrate {K : Type} (us : Int) (st : Imu K) : Imu K :=
  if !st.calibrated ∧ millis us - st.start_t ≥ 1000 then
    { st with yawOffset := st.gyroZangle, calibrated := true, gyroZangle := 0 }
  else st

/-- Lines 130-131 of `imu::poll`: the complementary filter. -/
@[simps]
def Imu.complementary {K : Type} (roll pitch gyroXrate gyroYrate dt : ℚ) (st : Imu K) :
    Imu K :=
  { st with compAngleX := 93 / 100 * (st.compAngleX + gyroXrate * dt) + 7 / 100 * roll,
            compAngleY := 93 / 100 * (st.compAngleY + gyroYrate * dt) + 7 / 100 * pitch }

/-- Lines 133-134 of `imu::poll`: the gyro roll angle is reset when it has
drifted out of `[-180, 180]`. -/
def Imu.resetGyroX {K : Type} (st : Imu K) : Imu K :=
  if st.gyroXangle < -180 ∨ st.gyroXangle > 180 then { st with gyroXangle := st.kalAngleX }
  else st

/-- Lines 135-136 of `imu::poll`: the gyro pitch angle is reset when it has
drifted out of `[-180, 180]`. -/
def Imu.resetGyroY {K : Type} (st : Imu K) : Imu K :=
  if st.gyroYangle < -180 ∨ st.gyroYangle > 180 then { st with gyroYangle := st.kalAngleY }
  else st

/-- The function `imu::poll`, from the point where the bus read has succeeded.
`s` is the sample read; `us1`, `us2` are the readings of `micros()` on lines 91
and 92 and `us3` the one inside `millis()` on line 124. -/
def Imu.poll {K : Type} (ops : KalmanOps K) (m : Libm) (s : Sample) (us1 us2 us3 : Int)
    (st : Imu K) : Imu K :=
  let st := st.readSample s
  let dt : ℚ := ((us1 - st.timer : Int) : ℚ) / 1000000
  let st := st.setTimer us2
  let roll := m.atan (st.accY / m.sqrt (st.accX * st.accX + st.accZ * st.accZ)) * RAD_TO_DEG
  let pitch := m.atan2 (-st.accX) st.accZ * RAD_TO_DEG
  let gyroXrate := st.gyroX / 131
  let gyroYrate := st.gyroY / 131
  let gyroZrate := st.gyroZ / 131
  let st := st.pitchStep ops pitch gyroYrate dt
  let gyroXrate := if |st.kalAngleY| > 90 then -gyroXrate else gyroXrate
  let st := st.rollStep ops roll gyroXrate dt
  let st := st.integrateGyro gyroXrate gyroYrate gyroZrate dt
  let st := st.integrateSpeed dt
  let st := st.calibrate us3
  let st := st.complementary roll pitch gyroXrate gyroYrate dt
  let st := st.resetGyroX
  st.resetGyroY

/-- Field-by-field form of `Imu.pitchStep`. -/
@[simps]
def Imu.pitchStepFields {K : Type} (ops : KalmanOps K) (pitch gyroYrate dt : ℚ) (st : Imu K) :
    Imu K :=
  { st with
    kalmanY :=
      if (pitch < -90 ∧ st.kalAngleY > 90) ∨ (pitch > 90 ∧ st.kalAngleY < -90) then
        ops.setAngle st.kalmanY pitch
      else (ops.getAngle st.kalmanY pitch gyroYrate dt).2
    compAngleY :=
      if (pitch < -90 ∧ st.kalAngleY > 90) ∨ (pitch > 90 ∧ st.kalAngleY < -90) then pitch
      else st.compAngleY
    kalAngleY :=
      if (pitch < -90 ∧ st.kalAngleY > 90) ∨ (pitch > 90 ∧ st.kalAngleY < -90) then pitch
      else (ops.getAngle st.kalmanY pitch gyroYrate dt).1
    gyroYangle :=
      if (pitch < -90 ∧ st.kalAngleY > 90) ∨ (pitch > 90 ∧ st.kalAngleY < -90) then pitch
      else st.gyroYangle }

/-- Field-by-field form of `Imu.calibrate`. -/
@[simps]
def Imu.calibrateFields {K : Type} (us : Int) (st : Imu K) : Imu K :=
  { st with
    yawOffset :=
      if !st.calibrated ∧ millis us - st.start_t ≥ 1000 then st.gyroZangle else st.yawOffset
    calibrated :=
      if !st.calibrated ∧ millis us - st.start_t ≥ 1000 then true else st.calibrated
    gyroZangle :=
      if !st.calibrated ∧ millis us - st.start_t ≥ 1000 then 0 else st.gyroZangle }

/-- Field-by-field form of `Imu.resetGyroX`. -/
@[simps]
def Imu.resetGyroXFields {K : Type} (st : Imu K) : Imu K :=
  { st with
    gyroXangle :=
      if st.gyroXangle < -180 ∨ st.gyroXangle > 180 then st.kalAngleX else st.gyroXangle }

/-- Field-by-field form of `Imu.resetGyroY`. -/
@[simps]
def Imu.resetGyroYFields {K : Type} (st : Imu K) : Imu K :=
  { st with
    gyroYangle :=
      if st.gyroYangle < -180 ∨ st.gyroYangle > 180 then st.kalAngleY else st.gyroYangle }

/-- The function `imu::get_angles`. -/
def Imu.get_angles {K : Type} (st : Imu K) : Vec3 :=
  ![st.kalAngleX, st.kalAngleY, st.gyroZangle]

/-- The function `imu::get_acceleration`. -/
def Imu.get_acceleration {K : Type} (st : Imu K) : Vec3 :=
  ![st.accX, st.accY, st.accZ]

/-- The function `imu::get_speed`: a copy of the three cells of the vector. -/
def Imu.get_speed {K : Type} (st : Imu K) : Vec3 :=
  ![st.speed 0, st.speed 1, st.speed 2]

/-- The function `imu::get_temperature`. -/
def Imu.get_temperature {K : Type} (st : Imu K) : ℚ :=
  st.tempRaw / 340 + 3653 / 100

/-- The states after each of a sequence of `poll()` calls; an entry of the
list is the sample and the three clock readings of one call. -/
def Imu.pollTrace {K : Type} (ops : KalmanOps K) (m : Libm) :
    List (Sample × Int × Int × Int) → Imu K → List (Imu K)
  | [], _ => []
  | c :: cs, st =>
    let st1 := Imu.poll ops m c.1 c.2.1 c.2.2.1 c.2.2.2 st
    st1 :: Imu.pollTrace ops m cs st1

/-- Modelled from the spec: the state of the single-axis filter of `kalman.hpp`
(angle, bias, 2×2 covariance and the three tunables). -/
structure AxisKalmanState where
  angle : ℚ
  bias : ℚ
  P00 : ℚ
  P01 : ℚ
  P10 : ℚ
  P11 : ℚ
  Q_angle : ℚ
  Q_bias : ℚ
  R_measure : ℚ

/-- Modelled from the spec: `setAngle(a)` of `kalman.hpp` resets the angle to
`a`, the bias to 0 and the covariance to the identity. -/
def AxisKalmanState.setAngle (k : AxisKalmanState) (a : ℚ) : AxisKalmanState :=
  { k with angle := a, bias := 0, P00 := 1, P01 := 0, P10 := 0, P11 := 1 }

/-- Modelled from the spec: the predict/correct update of `kalman.hpp`.
Predict: `angle += dt * (measuredRate - bias)` and the covariance is propagated
with process noise; correct: residual `y`, innovation variance `S`, gain
`K = [P00/S, P10/S]`, then angle, bias and covariance are updated. -/
def AxisKalmanState.getAngle (k : AxisKalmanState) (measuredAngle measuredRate dt : ℚ) :
    ℚ × AxisKalmanState :=
  let angle := k.angle + dt * (measuredRate - k.bias)
  let p00 := k.P00 + dt * (dt * k.P11 - k.P01 - k.P10 + k.Q_angle)
  let p01 := k.P01 - dt * k.P11
  let p10 := k.P10 - dt * k.P11
  let p11 := k.P11 + k.Q_bias * dt
  let y := measuredAngle - angle
  let S := p00 + k.R_measure
  let K0 := p00 / S
  let K1 := p10 / S
  let angle := angle + K0 * y
  let bias := k.bias + K1 * y
  (angle, { k with angle := angle, bias := bias,
                   P00 := p00 - K0 * p00, P01 := p01 - K0 * p01,
                   P10 := p10 - K1 * p00, P11 := p11 - K1 * p01 })

/-- The spec-modelled filter packaged as the operations `poll` needs. -/
def axisKalmanOps : KalmanOps AxisKalmanState where
  setAngle := AxisKalmanState.setAngle
  getAngle := AxisKalmanState.getAngle

/-! ## Sample data -/

/-- A configuration with thrust bounds `[1000, 2000]`. -/
def sampleConfig : Config where
  MIN_THRUST := 1000
  MAX_THRUST := 2000
  masterGain := 2
  pidRoll := ![1, 1 / 100]
  pidPitch := ![1, 1 / 100]
  pidHeading := ![1, 1 / 100]
  pidHeight := ![1, 1]
  maxRollRotationalVel := 10
  maxPitchRotationalVel := 10
  maxYawRotationalVel := 10
  maxDownSpeed := 2
  maxUpSpeed := 2
  maxDownAcceleration := 5
  safetyHeight := 1
  landingPrecision := 1 / 10

/-- A controller with all motors at `1500`. -/
def sampleController : FlightController where
  thrust := ![1500, 1500, 1500, 1500]
  pidGains := ⟨0, 0, 0, 0⟩
  navMode := "Hold"
  log := []

/-- A vehicle half a metre above ground, far from the landing spot, gear down. -/
def sampleDrone : Drone where
  height := 1 / 2
  zSpeed := 0
  position := Vec3.zero
  distanceToLandingSpot := 5
  gearUp := false
  gearRaiseHeight := 3
  gearLowerHeight := 2
  t00 := ![1500, 1500, 1500, 1500]
  motorRotationSigns := ![1, -1, 1, -1]
  referenceAttitude := Vec3.zero
  referenceRotationalVel := Vec3.zero
  referenceVelocity := Vec3.zero
  referencePosition := Vec3.zero
  holdPosition := Vec3.zero
  thrustOut := fun _ => 0
  retractLog := []

/-- A level, motionless estimator reading. -/
def sampleReadings : ImuReadings where
  angles := Vec3.zero
  rotational_velocity := Vec3.zero
  acceleration := ![0, 0, 16384]

/-- An estimator reading with each angle at `-3/20` and each rotational rate at
`10`, the configured maximum of `sampleConfig`. -/
def fastReadings : ImuReadings where
  angles := ![-3 / 20, -3 / 20, -3 / 20]
  rotational_velocity := ![10, 10, 10]
  acceleration := ![0, 0, 16384]

/-- An estimator reading with roll estimate `1` and roll rate `-100`, for which
the roll gain of `sampleConfig` is exactly zero. -/
def tiltedReadings : ImuReadings where
  angles := ![1, 0, 0]
  rotational_velocity := ![-100, 0, 0]
  acceleration := ![0, 0, 16384]

/-- The sample vehicle at height `5`, above the safety height, climbing at `3`,
faster than the `maxUpSpeed` of `sampleConfig`. -/
def highDrone : Drone := { sampleDrone with height := 5, zSpeed := 3 }

/-- A rational stand-in for the libm functions: `atan` by the approximation
`x / (1 + 0.28 x²)`, `atan2` by quadrant from it with the constant `PI`, `sqrt`
by the integer square root and `cos` by its Taylor polynomial of degree 4.
It is exact at `atan 0`, `cos 0`, `atan2 0 x` (up to `PI`) and on perfect
squares. -/
def sampleLibm : Libm where
  atan := fun x => x / (1 + 7 / 25 * x ^ 2)
  atan2 := fun y x =>
    if x > 0 then (y / x) / (1 + 7 / 25 * (y / x) ^ 2)
    else if x < 0 then
      if y ≥ 0 then (y / x) / (1 + 7 / 25 * (y / x) ^ 2) + PI
      else (y / x) / (1 + 7 / 25 * (y / x) ^ 2) - PI
    else if y > 0 then PI / 2
    else if y < 0 then -PI / 2
    else 0
  sqrt := fun x => (Nat.sqrt x.floor.toNat : ℚ)
  cos := fun x => 1 - x ^ 2 / 2 + x ^ 4 / 24

/-- A freshly reset filter with the usual tunables. -/
def sampleKalman : AxisKalmanState where
  angle := 0
  bias := 0
  P00 := 1
  P01 := 0
  P10 := 0
  P11 := 1
  Q_angle := 1 / 1000
  Q_bias := 3 / 1000
  R_measure := 3 / 100

/-- An estimator 1.49 s after start, not yet calibrated, with a yaw integral
of `3` accumulated and the filtered pitch at `-170`. -/
def sampleImu : Imu AxisKalmanState where
  calibrated := false
  start_t := 0
  yawOffset := 0
  timer := 1490000
  accX := 0
  accY := 0
  accZ := 16384
  tempRaw := 0
  gyroX := 0
  gyroY := 0
  gyroZ := 0
  kalmanX := sampleKalman
  kalmanY := { sampleKalman with angle := -170 }
  kalAngleX := 0
  kalAngleY := -170
  gyroXangle := 0
  gyroYangle := -170
  gyroZangle := 3
  compAngleX := 0
  compAngleY := -170
  speed := fun _ => 0

/-- A level sample with a yaw rate reading of `131` (one degree per second). -/
def levelSample : Sample where
  accX := 0
  accY := 0
  accZ := 16384
  tempRaw := 0
  gyroX := 0
  gyroY := 0
  gyroZ := 131

/-- An inverted sample: gravity along `-z`, so the accelerometer pitch is 180. -/
def invertedSample : Sample where
  accX := 0
  accY := 0
  accZ := -16384
  tempRaw := 0
  gyroX := 0
  gyroY := 0
  gyroZ := 0

/-- A level sample with horizontal acceleration readings `100` and `200`. -/
def movingSample : Sample where
  accX := 100
  accY := 200
  accZ := 16384
  tempRaw := 0
  gyroX := 0
  gyroY := 0
  gyroZ := 0

/-- An inverted sample with a pitch-rate reading of `-131` (minus one degree
per second). -/
def invertedTurningSample : Sample where
  accX := 0
  accY := 0
  accZ := -16384
  tempRaw := 0
  gyroX := 0
  gyroY := -131
  gyroZ := 0

/-- The sample estimator once calibrated, with the yaw offset `301/100` latched. -/
def calibratedImu : Imu AxisKalmanState :=
  { sampleImu with calibrated := true, yawOffset := 301 / 100, gyroZangle := 0 }

/-- The sample vehicle at height `5`, sinking at `3`, faster than the
`maxDownSpeed` of `sampleConfig`. -/
def sinkingDrone : Drone := { sampleDrone with height := 5, zSpeed := -3 }

/-- The sample vehicle at height `5`, above the safety height, at rest
vertically. -/
def hoverDrone : Drone := { sampleDrone with height := 5 }

/-! ## Lemmas on `updateReferenceThrust` -/

theorem scaleMotor_eq (cfg : Config) (gain : ℚ) (signs : Fin 4 → Int) (thrust : Vec4)
    (i : Fin 4) :
    scaleMotor cfg gain signs thrust i =
      Function.update thrust i (bound cfg (thrust i * (1 + gain * (signs i : ℚ)))) := by
  unfold scaleMotor bound
  simp only [Function.update_same, Function.update_idem]
  split_ifs <;> rfl

theorem checkSign_thrust (signs : Fin 4 → Int) (fc : FlightController) (i : Fin 4) :
    (checkSign signs fc i).thrust = fc.thrust := by
  unfold checkSign FlightController.logLine
  split_ifs <;> rfl

theorem checkSign_pidGains (signs : Fin 4 → Int) (fc : FlightController) (i : Fin 4) :
    (checkSign signs fc i).pidGains = fc.pidGains := by
  unfold checkSign FlightController.logLine
  split_ifs <;> rfl

theorem updateReferenceThrust_thrust (cfg : Config) (gain : ℚ) (signs : Fin 4 → Int)
    (fc : FlightController) (i : Fin 4) :
    (updateReferenceThrust cfg gain signs fc).thrust i =
      bound cfg (fc.thrust i * (1 + gain * (signs i : ℚ))) := by
  simp only [updateReferenceThrust, List.foldl_cons, List.foldl_nil, scaleMotor_eq,
    checkSign_thrust]
  fin_cases i <;> simp [Function.update]

theorem updateReferenceThrust_pidGains (cfg : Config) (gain : ℚ) (signs : Fin 4 → Int)
    (fc : FlightController) :
    (updateReferenceThrust cfg gain signs fc).pidGains = fc.pidGains := by
  simp only [updateReferenceThrust, List.foldl_cons, List.foldl_nil, checkSign_pidGains]

theorem bound_eq_clamp (cfg : Config) (h : cfg.MIN_THRUST ≤ cfg.MAX_THRUST) (t : ℚ) :
    bound cfg t = clamp t cfg.MIN_THRUST cfg.MAX_THRUST := by
  unfold bound clamp
  split_ifs with h1 h2
  · rw [min_eq_right (le_of_lt h1), max_eq_right h]
  · rw [min_eq_left (le_of_lt (lt_of_lt_of_le h2 h)), max_eq_left (le_of_lt h2)]
  · rw [min_eq_left (not_lt.mp h1), max_eq_right (not_lt.mp h2)]

theorem bound_inBounds (cfg : Config) (h : cfg.MIN_THRUST ≤ cfg.MAX_THRUST) (t : ℚ) :
    inBounds cfg (bound cfg t) := by
  unfold bound inBounds
  split_ifs with h1 h2
  · exact ⟨h, le_refl _⟩
  · exact ⟨le_refl _, h⟩
  · exact ⟨not_lt.mp h2, not_lt.mp h1⟩

theorem updateReferenceThrust_log (cfg : Config) (gain : ℚ) (signs : Fin 4 → Int)
    (fc : FlightController) :
    (updateReferenceThrust cfg gain signs fc).log =
      fc.log ++ List.replicate
        (([0, 1, 2, 3] : List (Fin 4)).filter (fun i => signs i ≠ 1 ∧ signs i ≠ -1)).length
        "Incorrect signs for updateReferenceThrust!" := by
  simp only [updateReferenceThrust, List.foldl_cons, List.foldl_nil, checkSign,
    FlightController.logLine]
  by_cases h0 : signs 0 ≠ 1 ∧ signs 0 ≠ -1 <;> by_cases h1 : signs 1 ≠ 1 ∧ signs 1 ≠ -1 <;>
    by_cases h2 : signs 2 ≠ 1 ∧ signs 2 ≠ -1 <;> by_cases h3 : signs 3 ≠ 1 ∧ signs 3 ≠ -1 <;>
    simp [List.filter, h0, h1, h2, h3, List.replicate]

theorem updateTrace_length (cfg : Config) (calls : List (ℚ × (Fin 4 → Int))) :
    ∀ fc : FlightController, (updateTrace cfg calls fc).length = calls.length := by
  induction calls with
  | nil => intro fc; rfl
  | cons c cs ih => intro fc; simp [updateTrace, ih]

theorem updateTrace_inBounds (cfg : Config) (h : cfg.MIN_THRUST ≤ cfg.MAX_THRUST)
    (calls : List (ℚ × (Fin 4 → Int))) :
    ∀ fc : FlightController, ∀ s ∈ updateTrace cfg calls fc, ∀ i, inBounds cfg (s.thrust i) := by
  induction calls with
  | nil => intro fc s hs; simp [updateTrace] at hs
  | cons c cs ih =>
    intro fc s hs i
    simp only [updateTrace, List.mem_cons] at hs
    rcases hs with rfl | hs
    · rw [updateReferenceThrust_thrust]
      exact bound_inBounds cfg h _
    · exact ih _ s hs i

/-! ## Lemmas on `heightPID` -/

theorem updateReferenceThrust_logLine_thrust (cfg : Config) (gain : ℚ) (signs : Fin 4 → Int)
    (fc : FlightController) (msg : String) (i : Fin 4) :
    (updateReferenceThrust cfg gain signs (fc.logLine msg)).thrust i =
      bound cfg (fc.thrust i * (1 + gain * (signs i : ℚ))) := by
  rw [updateReferenceThrust_thrust]; rfl

/-- The value `heightPID` stores in `pidGains["Height"]`. -/
theorem heightPID_gain (cfg : Config) (d : Drone) (imu : ImuReadings) (a v : Vec3)
    (fc : FlightController) :
    (heightPID cfg d imu a v fc).pidGains.Height =
      (if belowSafety cfg d then cfg.pidHeight 0 * (cfg.safetyHeight - d.height)
       else a 2 * cfg.pidHeight 0 + v 2 * cfg.pidHeight 1) * cfg.masterGain := by
  unfold heightPID belowSafety
  by_cases hb : d.height < cfg.safetyHeight ∧ d.distanceToLandingSpot > cfg.landingPrecision <;>
    simp only [hb, if_true, if_false] <;>
    split_ifs <;>
    simp [updateReferenceThrust_pidGains, FlightController.logLine]

/-- The thrust vector `heightPID` leaves, in terms of the stored gain `G`. -/
theorem heightPID_thrust (cfg : Config) (d : Drone) (imu : ImuReadings) (a v : Vec3)
    (fc : FlightController) (i : Fin 4) :
    (heightPID cfg d imu a v fc).thrust i =
      (if movingDownTooFast cfg d imu then
        bound cfg (fc.thrust i * (1 + |(heightPID cfg d imu a v fc).pidGains.Height|))
      else if d.zSpeed ≤ cfg.maxUpSpeed ∧
          ((heightPID cfg d imu a v fc).pidGains.Height > 0 ∨
            ((heightPID cfg d imu a v fc).pidGains.Height < 0 ∧ d.zSpeed ≥ -cfg.maxDownSpeed)) then
        bound cfg (fc.thrust i * (1 + (heightPID cfg d imu a v fc).pidGains.Height))
      else fc.thrust i) := by
  rw [heightPID_gain]
  have hs : ((![1, 1, 1, 1] : Fin 4 → Int) i : ℚ) = 1 := by fin_cases i <;> simp
  unfold heightPID belowSafety movingDownTooFast
  by_cases hb : d.height < cfg.safetyHeight ∧ d.distanceToLandingSpot > cfg.landingPrecision
  · simp only [hb, if_true, and_self]
    by_cases hm : d.zSpeed ≤ -cfg.maxDownSpeed ∨
      (imu.acceleration 2 ≤ -cfg.maxDownAcceleration ∧ d.zSpeed < 0)
    · simp only [hm, if_true]
      rw [updateReferenceThrust_logLine_thrust, hs, mul_one]
      simp [FlightController.logLine]
    · simp only [hm, if_false]
      by_cases hu : d.zSpeed ≤ cfg.maxUpSpeed
      · simp only [hu, if_true, true_and]
        by_cases hg : cfg.pidHeight 0 * (cfg.safetyHeight - d.height) * cfg.masterGain > 0
        · simp only [hg, if_true, true_or]
          rw [updateReferenceThrust_logLine_thrust, hs, mul_one]
          simp [FlightController.logLine]
        · simp only [hg, if_false, false_or]
          split_ifs
          · rw [updateReferenceThrust_logLine_thrust, hs, mul_one]
            simp [FlightController.logLine]
          · simp [FlightController.logLine]
      · simp [hu, FlightController.logLine]
  · simp only [hb, if_false]
    by_cases hm : d.zSpeed ≤ -cfg.maxDownSpeed ∨
      (imu.acceleration 2 ≤ -cfg.maxDownAcceleration ∧ d.zSpeed < 0)
    · simp only [hm, if_true]
      rw [updateReferenceThrust_logLine_thrust, hs, mul_one]
    · simp only [hm, if_false]
      by_cases hu : d.zSpeed ≤ cfg.maxUpSpeed
      · simp only [hu, if_true, true_and]
        by_cases hg : (a 2 * cfg.pidHeight 0 + v 2 * cfg.pidHeight 1) * cfg.masterGain > 0
        · simp only [hg, if_true, true_or]
          rw [updateReferenceThrust_logLine_thrust, hs, mul_one]
        · simp only [hg, if_false, false_or]
          split_ifs
          · rw [updateReferenceThrust_logLine_thrust, hs, mul_one]
          · simp [FlightController.logLine]
      · simp [hu, FlightController.logLine]

/-! ## Lemmas on the attitude updates -/

theorem rollPID_gain (cfg : Config) (da dr : Vec3) (fc : FlightController) :
    (rollPID cfg da dr fc).pidGains.Roll =
      (da 0 * cfg.pidRoll 0 + dr 0 * cfg.pidRoll 1) * cfg.masterGain := by
  unfold rollPID
  dsimp only
  split_ifs <;> simp [updateReferenceThrust_pidGains, FlightController.logLine]

theorem rollPID_thrust (cfg : Config) (da dr : Vec3) (fc : FlightController) (i : Fin 4) :
    (rollPID cfg da dr fc).thrust i =
      (if ((rollPID cfg da dr fc).pidGains.Roll > 0 ∧ dr 0 ≤ cfg.maxRollRotationalVel) ∨
          ((rollPID cfg da dr fc).pidGains.Roll < 0 ∧ dr 0 ≥ -cfg.maxRollRotationalVel) then
        bound cfg (fc.thrust i *
          (1 + (rollPID cfg da dr fc).pidGains.Roll * ((![1, -1, -1, 1] : Fin 4 → Int) i : ℚ)))
      else fc.thrust i) := by
  rw [rollPID_gain]
  unfold rollPID
  dsimp only
  by_cases h1 : (da 0 * cfg.pidRoll 0 + dr 0 * cfg.pidRoll 1) * cfg.masterGain > 0 ∧
      dr 0 ≤ cfg.maxRollRotationalVel
  · simp only [h1, and_self, if_true, true_or]
    rw [updateReferenceThrust_logLine_thrust]
  · by_cases h2 : (da 0 * cfg.pidRoll 0 + dr 0 * cfg.pidRoll 1) * cfg.masterGain < 0 ∧
        dr 0 ≥ -cfg.maxRollRotationalVel
    · simp only [h1, h2, and_self, if_true, if_false, or_true]
      rw [updateReferenceThrust_logLine_thrust]
    · simp only [h1, h2, if_false, or_self]
      rfl

theorem pitchPID_gain (cfg : Config) (da dr : Vec3) (fc : FlightController) :
    (pitchPID cfg da dr fc).pidGains.Pitch =
      (da 1 * cfg.pidPitch 0 + dr 1 * cfg.pidPitch 1) * cfg.masterGain := by
  unfold pitchPID
  dsimp only
  split_ifs <;> simp [updateReferenceThrust_pidGains, FlightController.logLine]

theorem pitchPID_thrust (cfg : Config) (da dr : Vec3) (fc : FlightController) (i : Fin 4) :
    (pitchPID cfg da dr fc).thrust i =
      (if ((pitchPID cfg da dr fc).pidGains.Pitch > 0 ∧ dr 1 ≤ cfg.maxPitchRotationalVel) ∨
          ((pitchPID cfg da dr fc).pidGains.Pitch < 0 ∧ dr 1 ≥ -cfg.maxPitchRotationalVel) then
        bound cfg (fc.thrust i *
          (1 + (pitchPID cfg da dr fc).pidGains.Pitch * ((![-1, -1, 1, 1] : Fin 4 → Int) i : ℚ)))
      else fc.thrust i) := by
  rw [pitchPID_gain]
  unfold pitchPID
  dsimp only
  by_cases h1 : (da 1 * cfg.pidPitch 0 + dr 1 * cfg.pidPitch 1) * cfg.masterGain > 0 ∧
      dr 1 ≤ cfg.maxPitchRotationalVel
  · simp only [h1, and_self, if_true, true_or]
    rw [updateReferenceThrust_logLine_thrust]
  · by_cases h2 : (da 1 * cfg.pidPitch 0 + dr 1 * cfg.pidPitch 1) * cfg.masterGain < 0 ∧
        dr 1 ≥ -cfg.maxPitchRotationalVel
    · simp only [h1, h2, and_self, if_true, if_false, or_true]
      rw [updateReferenceThrust_logLine_thrust]
    · simp only [h1, h2, if_false, or_self]
      rfl

theorem headingPID_gain (cfg : Config) (d : Drone) (da dr : Vec3) (fc : FlightController) :
    (headingPID cfg d da dr fc).pidGains.Heading =
      (da 2 * cfg.pidHeading 0 + dr 2 * cfg.pidHeading 1) * cfg.masterGain := by
  unfold headingPID
  dsimp only
  split_ifs <;> simp [updateReferenceThrust_pidGains, FlightController.logLine]

theorem headingPID_thrust (cfg : Config) (d : Drone) (da dr : Vec3) (fc : FlightController)
    (i : Fin 4) :
    (headingPID cfg d da dr fc).thrust i =
      (if ((headingPID cfg d da dr fc).pidGains.Heading > 0 ∧
            dr 2 ≤ cfg.maxYawRotationalVel) ∨
          ((headingPID cfg d da dr fc).pidGains.Heading < 0 ∧
            dr 2 ≥ -cfg.maxYawRotationalVel) then
        bound cfg (fc.thrust i *
          (1 + (headingPID cfg d da dr fc).pidGains.Heading * (d.motorRotationSigns i : ℚ)))
      else fc.thrust i) := by
  rw [headingPID_gain]
  unfold headingPID
  dsimp only
  by_cases h1 : (da 2 * cfg.pidHeading 0 + dr 2 * cfg.pidHeading 1) * cfg.masterGain > 0 ∧
      dr 2 ≤ cfg.maxYawRotationalVel
  · simp only [h1, and_self, if_true, true_or]
    rw [updateReferenceThrust_logLine_thrust]
  · by_cases h2 : (da 2 * cfg.pidHeading 0 + dr 2 * cfg.pidHeading 1) * cfg.masterGain < 0 ∧
        dr 2 ≥ -cfg.maxYawRotationalVel
    · simp only [h1, h2, and_self, if_true, if_false, or_true]
      rw [updateReferenceThrust_logLine_thrust]
    · simp only [h1, h2, if_false, or_self]
      rfl

/-! ## Lemmas on `imu::poll` -/

theorem Imu.pitchStep_eq {K : Type} (ops : KalmanOps K) (pitch gyroYrate dt : ℚ) (st : Imu K) :
    st.pitchStep ops pitch gyroYrate dt = st.pitchStepFields ops pitch gyroYrate dt := by
  unfold Imu.pitchStep Imu.pitchStepFields
  split_ifs <;> rfl

theorem Imu.calibrate_eq {K : Type} (us : Int) (st : Imu K) :
    st.calibrate us = st.calibrateFields us := by
  unfold Imu.calibrate Imu.calibrateFields
  split_ifs <;> rfl

theorem Imu.resetGyroX_eq {K : Type} (st : Imu K) : st.resetGyroX = st.resetGyroXFields := by
  unfold Imu.resetGyroX Imu.resetGyroXFields
  split_ifs <;> rfl

theorem Imu.resetGyroY_eq {K : Type} (st : Imu K) : st.resetGyroY = st.resetGyroYFields := by
  unfold Imu.resetGyroY Imu.resetGyroYFields
  split_ifs <;> rfl

theorem poll_calibrated {K : Type} (ops : KalmanOps K) (m : Libm) (s : Sample)
    (us1 us2 us3 : Int) (st : Imu K) :
    (Imu.poll ops m s us1 us2 us3 st).calibrated =
      (if !st.calibrated ∧ millis us3 - st.start_t ≥ 1000 then true else st.calibrated) := by
  simp [Imu.poll, Imu.pitchStep_eq, Imu.calibrate_eq, Imu.resetGyroX_eq, Imu.resetGyroY_eq,
    Imu.integrateSpeed]

theorem poll_gyroZangle {K : Type} (ops : KalmanOps K) (m : Libm) (s : Sample)
    (us1 us2 us3 : Int) (st : Imu K) :
    (Imu.poll ops m s us1 us2 us3 st).gyroZangle =
      (if !st.calibrated ∧ millis us3 - st.start_t ≥ 1000 then 0
       else st.gyroZangle + (s.gyroZ / 131 * (((us1 - st.timer : Int) : ℚ) / 1000000) -
         st.yawOffset * (((us1 - st.timer : Int) : ℚ) / 1000000))) := by
  simp [Imu.poll, Imu.pitchStep_eq, Imu.calibrate_eq, Imu.resetGyroX_eq, Imu.resetGyroY_eq,
    Imu.integrateSpeed]

theorem poll_yawOffset {K : Type} (ops : KalmanOps K) (m : Libm) (s : Sample)
    (us1 us2 us3 : Int) (st : Imu K) :
    (Imu.poll ops m s us1 us2 us3 st).yawOffset =
      (if !st.calibrated ∧ millis us3 - st.start_t ≥ 1000 then
        st.gyroZangle + (s.gyroZ / 131 * (((us1 - st.timer : Int) : ℚ) / 1000000) -
         st.yawOffset * (((us1 - st.timer : Int) : ℚ) / 1000000))
       else st.yawOffset) := by
  simp [Imu.poll, Imu.pitchStep_eq, Imu.calibrate_eq, Imu.resetGyroX_eq, Imu.resetGyroY_eq,
    Imu.integrateSpeed]

theorem poll_start_t {K : Type} (ops : KalmanOps K) (m : Libm) (s : Sample)
    (us1 us2 us3 : Int) (st : Imu K) :
    (Imu.poll ops m s us1 us2 us3 st).start_t = st.start_t := by
  simp [Imu.poll, Imu.pitchStep_eq, Imu.calibrate_eq, Imu.resetGyroX_eq, Imu.resetGyroY_eq,
    Imu.integrateSpeed]

theorem poll_kalAngleY {K : Type} (ops : KalmanOps K) (m : Libm) (s : Sample)
    (us1 us2 us3 : Int) (st : Imu K) :
    (Imu.poll ops m s us1 us2 us3 st).kalAngleY =
      (if (m.atan2 (-s.accX) s.accZ * RAD_TO_DEG < -90 ∧ st.kalAngleY > 90) ∨
          (m.atan2 (-s.accX) s.accZ * RAD_TO_DEG > 90 ∧ st.kalAngleY < -90) then
        m.atan2 (-s.accX) s.accZ * RAD_TO_DEG
       else (ops.getAngle st.kalmanY (m.atan2 (-s.accX) s.accZ * RAD_TO_DEG) (s.gyroY / 131)
          (((us1 - st.timer : Int) : ℚ) / 1000000)).1) := by
  simp [Imu.poll, Imu.pitchStep_eq, Imu.calibrate_eq, Imu.resetGyroX_eq, Imu.resetGyroY_eq,
    Imu.integrateSpeed]

theorem poll_kalmanY {K : Type} (ops : KalmanOps K) (m : Libm) (s : Sample)
    (us1 us2 us3 : Int) (st : Imu K) :
    (Imu.poll ops m s us1 us2 us3 st).kalmanY =
      (if (m.atan2 (-s.accX) s.accZ * RAD_TO_DEG < -90 ∧ st.kalAngleY > 90) ∨
          (m.atan2 (-s.accX) s.accZ * RAD_TO_DEG > 90 ∧ st.kalAngleY < -90) then
        ops.setAngle st.kalmanY (m.atan2 (-s.accX) s.accZ * RAD_TO_DEG)
       else (ops.getAngle st.kalmanY (m.atan2 (-s.accX) s.accZ * RAD_TO_DEG) (s.gyroY / 131)
          (((us1 - st.timer : Int) : ℚ) / 1000000)).2) := by
  simp [Imu.poll, Imu.pitchStep_eq, Imu.calibrate_eq, Imu.resetGyroX_eq, Imu.resetGyroY_eq,
    Imu.integrateSpeed]

/-! ## Lemmas on `hold` -/

/-- At the tilted reading, climbing faster than `maxUpSpeed`, the roll and pitch
gains are zero and no update of `hold` is applied, whatever velocity error is
received: the thrust is the baseline. -/
theorem hold_tilted_thrust (cos : ℚ → ℚ) (v : Vec3) (i : Fin 4) :
    (hold sampleConfig cos tiltedReadings v highDrone
      sampleController).2.thrust i = 1500 / (cos 1 * cos 0) := by
  unfold hold
  dsimp only
  rw [heightPID_thrust, heightPID_gain, pitchPID_thrust, pitchPID_gain, rollPID_thrust,
    rollPID_gain]
  fin_cases i <;>
  norm_num [movingDownTooFast, belowSafety, getDifferenceAttitude, getDifferenceRotationalVel,
    highDrone, sampleDrone, tiltedReadings, sampleConfig, sampleController, Vec3.zero]

theorem runIteration_thrustOut (cfg : Config) (cos : ℚ → ℚ) (imu : ImuReadings) (v : Vec3)
    (d : Drone) (fc : FlightController) (h : fc.navMode = "Hold") :
    (runIteration cfg cos imu v d fc).1.thrustOut = (hold cfg cos imu v d fc).2.thrust := by
  simp [runIteration, actuate, Drone.setThrust, h]

/-! ## Lemmas on the landing gear -/

theorem gearStep_up (d : Drone) (h : ℚ) (hu : d.gearUp = true) (hl : ¬ h < d.gearLowerHeight) :
    gearStep { d with height := h } = { d with height := h } := by
  simp [gearStep, hu, hl]

theorem gearStep_down_le (d : Drone) (h : ℚ) (hu : d.gearUp = false)
    (hr : ¬ h > d.gearRaiseHeight) :
    gearStep { d with height := h } = { d with height := h } := by
  simp [gearStep, hu, hr]

theorem gearStep_down_gt (d : Drone) (h : ℚ) (hu : d.gearUp = false)
    (hr : h > d.gearRaiseHeight) :
    gearStep { d with height := h } = Drone.setRetracts { d with height := h } true := by
  simp [gearStep, hu, hr]

theorem gearTrace_up (hs : List ℚ) :
    ∀ d : Drone, d.gearUp = true → (∀ h ∈ hs, ¬ h < d.gearLowerHeight) →
      (gearTrace hs d).map (fun s => (s.gearUp, s.retractLog)) =
        List.replicate hs.length (true, d.retractLog) := by
  induction hs with
  | nil => intro d _ _; rfl
  | cons h hs ih =>
    intro d hu hl
    have h1 : ¬ h < d.gearLowerHeight := hl h (List.mem_cons_self _ _)
    simp only [gearTrace, List.map_cons, List.length_cons, List.replicate_succ,
      gearStep_up d h hu h1]
    rw [ih { d with height := h } hu (fun x hx => hl x (List.mem_cons_of_mem _ hx))]
    simp [hu]

theorem gearTrace_down (hs : List ℚ) :
    ∀ d : Drone, d.gearUp = false → (∀ h ∈ hs, ¬ h > d.gearRaiseHeight) →
      (gearTrace hs d).map (fun s => (s.gearUp, s.retractLog)) =
        List.replicate hs.length (false, d.retractLog) := by
  induction hs with
  | nil => intro d _ _; rfl
  | cons h hs ih =>
    intro d hu hr
    have h1 : ¬ h > d.gearRaiseHeight := hr h (List.mem_cons_self _ _)
    simp only [gearTrace, List.map_cons, List.length_cons, List.replicate_succ,
      gearStep_down_le d h hu h1]
    rw [ih { d with height := h } hu (fun x hx => hr x (List.mem_cons_of_mem _ hx))]
    simp [hu]

theorem gearTrace_first_crossing (pre : List ℚ) (h : ℚ) (post : List ℚ) :
    ∀ d : Drone, d.gearUp = false → (∀ x ∈ pre, ¬ x > d.gearRaiseHeight) →
      h > d.gearRaiseHeight → (∀ x ∈ post, ¬ x < d.gearLowerHeight) →
      (gearTrace (pre ++ h :: post) d).map (fun s => (s.gearUp, s.retractLog)) =
        List.replicate pre.length (false, d.retractLog) ++
          List.replicate (post.length + 1) (true, d.retractLog ++ [true]) := by
  induction pre with
  | nil =>
    intro d hu _ hr hl
    simp only [List.nil_append, gearTrace, List.map_cons, gearStep_down_gt d h hu hr,
      List.length_nil, List.replicate_zero, List.replicate_succ]
    rw [gearTrace_up post _ (by simp [Drone.setRetracts]) (by simpa [Drone.setRetracts] using hl)]
    simp [Drone.setRetracts]
  | cons p pre ih =>
    intro d hu hpre hr hl
    have h1 : ¬ p > d.gearRaiseHeight := hpre p (List.mem_cons_self _ _)
    simp only [List.cons_append, gearTrace, List.map_cons, List.length_cons,
      List.replicate_succ, gearStep_down_le d p hu h1, List.append_eq]
    rw [ih { d with height := p } hu (fun x hx => hpre x (List.mem_cons_of_mem _ hx)) hr hl]
    simp [hu, List.replicate_succ]

/-! ## Claims -/

/-- C1: with thrust bounds `MIN_THRUST ≤ MAX_THRUST`, for every thrust vector,
gain and sign array (well-formed or not), `updateReferenceThrust` sets motor
`i` to `clamp (thrust[i] * (1 + gain * signs[i])) MIN_THRUST MAX_THRUST`; a
malformed sign only adds a log line.  With gain `0.1`, signs `[1,-1,-1,1]` and
thrust `[1500,1500,1500,1500]` the result is the clamp of
`[1650,1350,1350,1650]`. -/
theorem updateReferenceThrust_sets_clamp (cfg : Config)
    (h : cfg.MIN_THRUST ≤ cfg.MAX_THRUST) (gain : ℚ) (signs : Fin 4 → Int)
    (fc : FlightController) :
    (∀ i, (updateReferenceThrust cfg gain signs fc).thrust i =
        clamp (fc.thrust i * (1 + gain * (signs i : ℚ))) cfg.MIN_THRUST cfg.MAX_THRUST) ∧
    (updateReferenceThrust cfg gain signs fc).log =
      fc.log ++ List.replicate
        (([0, 1, 2, 3] : List (Fin 4)).filter (fun i => signs i ≠ 1 ∧ signs i ≠ -1)).length
        "Incorrect signs for updateReferenceThrust!" ∧
    (∀ i, (updateReferenceThrust cfg (1 / 10) ![1, -1, -1, 1]
        { fc with thrust := ![1500, 1500, 1500, 1500] }).thrust i =
        clamp ((![1650, 1350, 1350, 1650] : Vec4) i) cfg.MIN_THRUST cfg.MAX_THRUST) := by
  refine ⟨fun i => ?_, updateReferenceThrust_log cfg gain signs fc, fun i => ?_⟩
  · rw [updateReferenceThrust_thrust, bound_eq_clamp cfg h]
  · rw [updateReferenceThrust_thrust, bound_eq_clamp cfg h]
    fin_cases i <;> norm_num

/-- Witness for C1: bounds `[1000, 2000]`, gain `0.1`, a sign array with the
malformed entry `3`. -/
theorem updateReferenceThrust_sets_clamp_witness :
    sampleConfig.MIN_THRUST ≤ sampleConfig.MAX_THRUST ∧
    (updateReferenceThrust sampleConfig (1 / 10) ![1, -1, 3, 1] sampleController).thrust 2 =
      clamp (sampleController.thrust 2 * (1 + 1 / 10 * ((![1, -1, 3, 1] : Fin 4 → Int) 2 : ℚ)))
        sampleConfig.MIN_THRUST sampleConfig.MAX_THRUST :=
  ⟨by norm_num [sampleConfig],
   (updateReferenceThrust_sets_clamp sampleConfig (by norm_num [sampleConfig]) (1 / 10)
      ![1, -1, 3, 1] sampleController).1 2⟩

/-- C2: with `MIN_THRUST ≤ MAX_THRUST`, from every starting thrust vector and
for every finite sequence of `(gain, signs)` pairs, after each
`updateReferenceThrust` call of the sequence all four thrust values lie in
`[MIN_THRUST, MAX_THRUST]`. -/
theorem thrust_inBounds_after_every_update (cfg : Config)
    (h : cfg.MIN_THRUST ≤ cfg.MAX_THRUST) (calls : List (ℚ × (Fin 4 → Int)))
    (fc : FlightController) :
    (updateTrace cfg calls fc).length = calls.length ∧
    ∀ s ∈ updateTrace cfg calls fc, ∀ i, inBounds cfg (s.thrust i) :=
  ⟨updateTrace_length cfg calls fc, updateTrace_inBounds cfg h calls fc⟩

/-- Witness for C2: two calls from an all-`1500` thrust vector. -/
theorem thrust_inBounds_after_every_update_witness :
    sampleConfig.MIN_THRUST ≤ sampleConfig.MAX_THRUST ∧
    ∀ s ∈ updateTrace sampleConfig [(1 / 10, ![1, -1, -1, 1]), (-3, ![-1, -1, 1, 1])]
        sampleController,
      ∀ i, inBounds sampleConfig (s.thrust i) :=
  ⟨by norm_num [sampleConfig],
   (thrust_inBounds_after_every_update sampleConfig (by norm_num [sampleConfig])
     [(1 / 10, ![1, -1, -1, 1]), (-3, ![-1, -1, 1, 1])] sampleController).2⟩

/-- C3 as stated fails: below the safety height with precision unmet, master
gain 2, `Kp = 1`, height `0.5` and safety height `1`, the recorded Height gain
is `1`, not `Kp * (safetyHeight - height) = 0.5`. -/
theorem heightPID_override_gain_counterexample :
    belowSafety sampleConfig sampleDrone ∧
    (heightPID sampleConfig sampleDrone sampleReadings Vec3.zero Vec3.zero
        sampleController).pidGains.Height = 1 ∧
    sampleConfig.pidHeight 0 * (sampleConfig.safetyHeight - sampleDrone.height) = 1 / 2 ∧
    (heightPID sampleConfig sampleDrone sampleReadings Vec3.zero Vec3.zero
        sampleController).pidGains.Height ≠
      sampleConfig.pidHeight 0 * (sampleConfig.safetyHeight - sampleDrone.height) := by
  have hb : belowSafety sampleConfig sampleDrone := by
    norm_num [belowSafety, sampleConfig, sampleDrone]
  have hg : (heightPID sampleConfig sampleDrone sampleReadings Vec3.zero Vec3.zero
      sampleController).pidGains.Height = 1 := by
    rw [heightPID_gain, if_pos hb]
    norm_num [sampleConfig, sampleDrone]
  have hk : sampleConfig.pidHeight 0 * (sampleConfig.safetyHeight - sampleDrone.height)
      = 1 / 2 := by
    norm_num [sampleConfig, sampleDrone]
  refine ⟨hb, hg, hk, ?_⟩
  rw [hg, hk]; norm_num

/-- C3 amended: in `heightPID`, when the height is below `safetyHeight` and
`distanceToLandingSpot` exceeds `landingPrecision`, the gain recorded as the
Height gain is `masterGain * Kp_height * (safetyHeight - height)`, and the
thrust update, when one is applied, uses that value (its absolute value in the
moving-down-too-fast branch); height `0.5` and safety height `1` give
`0.5 * Kp_height * masterGain`. -/
theorem heightPID_override_gain_scaled (cfg : Config) (d : Drone) (imu : ImuReadings)
    (a v : Vec3) (fc : FlightController)
    (h1 : d.height < cfg.safetyHeight) (h2 : d.distanceToLandingSpot > cfg.landingPrecision) :
    (heightPID cfg d imu a v fc).pidGains.Height =
      cfg.masterGain * cfg.pidHeight 0 * (cfg.safetyHeight - d.height) ∧
    (∀ i, (heightPID cfg d imu a v fc).thrust i =
      (if movingDownTooFast cfg d imu then
        bound cfg (fc.thrust i *
          (1 + |cfg.masterGain * cfg.pidHeight 0 * (cfg.safetyHeight - d.height)|))
      else if d.zSpeed ≤ cfg.maxUpSpeed ∧
          (cfg.masterGain * cfg.pidHeight 0 * (cfg.safetyHeight - d.height) > 0 ∨
            (cfg.masterGain * cfg.pidHeight 0 * (cfg.safetyHeight - d.height) < 0 ∧
              d.zSpeed ≥ -cfg.maxDownSpeed)) then
        bound cfg (fc.thrust i *
          (1 + cfg.masterGain * cfg.pidHeight 0 * (cfg.safetyHeight - d.height)))
      else fc.thrust i)) ∧
    (d.height = 1 / 2 → cfg.safetyHeight = 1 →
      (heightPID cfg d imu a v fc).pidGains.Height = 1 / 2 * cfg.pidHeight 0 * cfg.masterGain) := by
  have hg : (heightPID cfg d imu a v fc).pidGains.Height =
      cfg.masterGain * cfg.pidHeight 0 * (cfg.safetyHeight - d.height) := by
    rw [heightPID_gain, if_pos ⟨h1, h2⟩]; ring
  refine ⟨hg, fun i => ?_, fun e1 e2 => ?_⟩
  · rw [heightPID_thrust, hg]
  · rw [hg, e1, e2]; ring

/-- Witness for C3 (amended): the sample vehicle at height `0.5` under safety
height `1`. -/
theorem heightPID_override_gain_scaled_witness :
    sampleDrone.height < sampleConfig.safetyHeight ∧
    sampleDrone.distanceToLandingSpot > sampleConfig.landingPrecision ∧
    (heightPID sampleConfig sampleDrone sampleReadings Vec3.zero Vec3.zero
        sampleController).pidGains.Height =
      sampleConfig.masterGain * sampleConfig.pidHeight 0 *
        (sampleConfig.safetyHeight - sampleDrone.height) :=
  ⟨by norm_num [sampleConfig, sampleDrone], by norm_num [sampleConfig, sampleDrone],
   (heightPID_override_gain_scaled sampleConfig sampleDrone sampleReadings Vec3.zero Vec3.zero
      sampleController (by norm_num [sampleConfig, sampleDrone])
      (by norm_num [sampleConfig, sampleDrone])).1⟩

/-- C4: in `heightPID`, when the height is below `safetyHeight` and
`distanceToLandingSpot` exceeds `landingPrecision`, two runs from the same
controller and vehicle state that differ only in `absoluteDirection` and
`differenceVelocity` end in the same state, so with the same recorded Height
gain and the same thrust vector. -/
theorem heightPID_override_ignores_arguments (cfg : Config) (d : Drone) (imu : ImuReadings)
    (fc : FlightController) (a1 v1 a2 v2 : Vec3)
    (h1 : d.height < cfg.safetyHeight) (h2 : d.distanceToLandingSpot > cfg.landingPrecision) :
    (heightPID cfg d imu a1 v1 fc).pidGains.Height =
        (heightPID cfg d imu a2 v2 fc).pidGains.Height ∧
    (heightPID cfg d imu a1 v1 fc).thrust = (heightPID cfg d imu a2 v2 fc).thrust := by
  have e : heightPID cfg d imu a1 v1 fc = heightPID cfg d imu a2 v2 fc := by
    unfold heightPID
    simp only [h1, h2, and_self, if_true]
  rw [e]
  exact ⟨rfl, rfl⟩

/-- Witness for C4: the sample vehicle, with two different argument pairs. -/
theorem heightPID_override_ignores_arguments_witness :
    sampleDrone.height < sampleConfig.safetyHeight ∧
    sampleDrone.distanceToLandingSpot > sampleConfig.landingPrecision ∧
    (heightPID sampleConfig sampleDrone sampleReadings ![0, 0, 7] ![1, 2, -3]
        sampleController).thrust =
      (heightPID sampleConfig sampleDrone sampleReadings ![0, 0, -40] ![0, 0, 9]
        sampleController).thrust :=
  ⟨by norm_num [sampleConfig, sampleDrone], by norm_num [sampleConfig, sampleDrone],
   (heightPID_override_ignores_arguments sampleConfig sampleDrone sampleReadings
      sampleController ![0, 0, 7] ![1, 2, -3] ![0, 0, -40] ![0, 0, 9]
      (by norm_num [sampleConfig, sampleDrone]) (by norm_num [sampleConfig, sampleDrone])).2⟩

/-- C5: with `setRetracts(b)` setting the gear flag to `b`, starting gear down
and feeding heights none of which is below `gearLowerHeight` to the
landing-gear step: if no height exceeds `gearRaiseHeight` the gear stays down
and no command is issued; otherwise the flag is down before the first height
that exceeds `gearRaiseHeight`, the single command `setRetracts(true)` is
issued at that height, and the gear is retracted with no further command after
it and after every later height. -/
theorem gear_retracts_exactly_once (d : Drone) (hs : List ℚ) (hd : d.gearUp = false)
    (hlow : ∀ h ∈ hs, ¬ h < d.gearLowerHeight) :
    ((∀ h ∈ hs, ¬ h > d.gearRaiseHeight) →
      (gearTrace hs d).map (fun s => (s.gearUp, s.retractLog)) =
        List.replicate hs.length (false, d.retractLog)) ∧
    (∀ pre h post, hs = pre ++ h :: post → (∀ x ∈ pre, ¬ x > d.gearRaiseHeight) →
      h > d.gearRaiseHeight →
      (gearTrace hs d).map (fun s => (s.gearUp, s.retractLog)) =
        List.replicate pre.length (false, d.retractLog) ++
          List.replicate (post.length + 1) (true, d.retractLog ++ [true])) := by
  refine ⟨fun hno => gearTrace_down hs d hd hno, ?_⟩
  intro pre h post e hpre hr
  subst e
  exact gearTrace_first_crossing pre h post d hd hpre hr
    (fun x hx => hlow x (List.mem_append_right _ (List.mem_cons_of_mem _ hx)))

/-- Witness for C5: thresholds raise `3` and lower `2`, heights `2, 4, 5/2, 4`:
the gear is retracted at the second height and stays so. -/
theorem gear_retracts_exactly_once_witness :
    sampleDrone.gearUp = false ∧
    (∀ h ∈ ([2, 4, 5 / 2, 4] : List ℚ), ¬ h < sampleDrone.gearLowerHeight) ∧
    (gearTrace [2, 4, 5 / 2, 4] sampleDrone).map (fun s => (s.gearUp, s.retractLog)) =
      [(false, []), (true, [true]), (true, [true]), (true, [true])] :=
  ⟨rfl, by norm_num [sampleDrone],
   (gear_retracts_exactly_once sampleDrone [2, 4, 5 / 2, 4] rfl
      (by norm_num [sampleDrone])).2 [2] 4 [5 / 2, 4] rfl (by norm_num [sampleDrone])
      (by norm_num [sampleDrone])⟩

/-- C6: for every position `p`, after `setHoldPosition(p)` the stored hold
position has the first two components of `p` and vertical component
`max(p[2], safetyHeight)`, which is never below `safetyHeight`. -/
theorem setHoldPosition_floor (cfg : Config) (p : Vec3) (d : Drone) :
    (setHoldPosition cfg p d).holdPosition 0 = p 0 ∧
    (setHoldPosition cfg p d).holdPosition 1 = p 1 ∧
    (setHoldPosition cfg p d).holdPosition 2 = max (p 2) cfg.safetyHeight ∧
    cfg.safetyHeight ≤ (setHoldPosition cfg p d).holdPosition 2 := by
  unfold setHoldPosition
  by_cases h : p 2 < cfg.safetyHeight
  · simp [h, max_eq_right (le_of_lt h)]
  · simp [h, max_eq_left (not_lt.mp h), not_lt.mp h]

/-- C7, the code at a failing input: with reference rate 0 and the measured rate
on each axis equal to the configured maximum `10`, the computed gain is
`0.1 > 0`, so the measured rate has reached the maximum in the direction of the
gain; yet `rollPID`, `pitchPID` and `headingPID` each apply the update (the
guard tests the rate error `-10 ≤ 10`) and change the thrust vector. -/
theorem attitude_guard_updates_at_max_rate :
    fastReadings.rotational_velocity 0 ≥ sampleConfig.maxRollRotationalVel ∧
    fastReadings.rotational_velocity 1 ≥ sampleConfig.maxPitchRotationalVel ∧
    fastReadings.rotational_velocity 2 ≥ sampleConfig.maxYawRotationalVel ∧
    (rollPID sampleConfig (getDifferenceAttitude sampleDrone fastReadings)
      (getDifferenceRotationalVel sampleDrone fastReadings) sampleController).pidGains.Roll
        = 1 / 10 ∧
    (pitchPID sampleConfig (getDifferenceAttitude sampleDrone fastReadings)
      (getDifferenceRotationalVel sampleDrone fastReadings) sampleController).pidGains.Pitch
        = 1 / 10 ∧
    (headingPID sampleConfig sampleDrone (getDifferenceAttitude sampleDrone fastReadings)
      (getDifferenceRotationalVel sampleDrone fastReadings) sampleController).pidGains.Heading
        = 1 / 10 ∧
    sampleController.thrust = ![1500, 1500, 1500, 1500] ∧
    (rollPID sampleConfig (getDifferenceAttitude sampleDrone fastReadings)
      (getDifferenceRotationalVel sampleDrone fastReadings) sampleController).thrust
        = ![1650, 1350, 1350, 1650] ∧
    (pitchPID sampleConfig (getDifferenceAttitude sampleDrone fastReadings)
      (getDifferenceRotationalVel sampleDrone fastReadings) sampleController).thrust
        = ![1350, 1350, 1650, 1650] ∧
    (headingPID sampleConfig sampleDrone (getDifferenceAttitude sampleDrone fastReadings)
      (getDifferenceRotationalVel sampleDrone fastReadings) sampleController).thrust
        = ![1650, 1350, 1650, 1350] := by
  refine ⟨?_, ?_, ?_, ?_, ?_, ?_, rfl, ?_, ?_, ?_⟩
  · norm_num [fastReadings, sampleConfig]
  · norm_num [fastReadings, sampleConfig]
  · norm_num [fastReadings, sampleConfig]
  · rw [rollPID_gain]
    norm_num [getDifferenceAttitude, getDifferenceRotationalVel, sampleDrone, fastReadings,
      sampleConfig, Vec3.zero]
  · rw [pitchPID_gain]
    norm_num [getDifferenceAttitude, getDifferenceRotationalVel, sampleDrone, fastReadings,
      sampleConfig, Vec3.zero]
  · rw [headingPID_gain]
    norm_num [getDifferenceAttitude, getDifferenceRotationalVel, sampleDrone, fastReadings,
      sampleConfig, Vec3.zero]
  · funext i
    rw [rollPID_thrust, rollPID_gain]
    fin_cases i <;>
      norm_num [getDifferenceAttitude, getDifferenceRotationalVel, sampleDrone, fastReadings,
        sampleConfig, sampleController, Vec3.zero, bound]
  · funext i
    rw [pitchPID_thrust, pitchPID_gain]
    fin_cases i <;>
      norm_num [getDifferenceAttitude, getDifferenceRotationalVel, sampleDrone, fastReadings,
        sampleConfig, sampleController, Vec3.zero, bound]
  · funext i
    rw [headingPID_thrust, headingPID_gain]
    fin_cases i <;>
      norm_num [getDifferenceAttitude, getDifferenceRotationalVel, sampleDrone, fastReadings,
        sampleConfig, sampleController, Vec3.zero, bound]

/-- C8: for every estimator state that is not yet calibrated, every sample and
every clock reading with at least 1000 ms elapsed since start, after `poll()`
the yaw component of `get_angles()` is exactly zero, the yaw offset is the yaw
integral accumulated up to and including this poll, and the estimator is
calibrated. -/
theorem poll_calibration_zeroes_yaw {K : Type} (ops : KalmanOps K) (m : Libm) (s : Sample)
    (us1 us2 us3 : Int) (st : Imu K)
    (hc : st.calibrated = false) (ht : millis us3 - st.start_t ≥ 1000) :
    (Imu.poll ops m s us1 us2 us3 st).get_angles 2 = 0 ∧
    (Imu.poll ops m s us1 us2 us3 st).yawOffset =
      st.gyroZangle + (s.gyroZ / 131 * (((us1 - st.timer : Int) : ℚ) / 1000000) -
        st.yawOffset * (((us1 - st.timer : Int) : ℚ) / 1000000)) ∧
    (Imu.poll ops m s us1 us2 us3 st).calibrated = true := by
  have hcond : (!st.calibrated) = true ∧ millis us3 - st.start_t ≥ 1000 := ⟨by simp [hc], ht⟩
  refine ⟨?_, ?_, ?_⟩
  · show (Imu.poll ops m s us1 us2 us3 st).gyroZangle = 0
    rw [poll_gyroZangle, if_pos hcond]
  · rw [poll_yawOffset, if_pos hcond]
  · rw [poll_calibrated, if_pos hcond]

/-- Witness for C8: the sample estimator (yaw integral `3`, not calibrated, start
at 0 ms) polled at 1.5 s. -/
theorem poll_calibration_zeroes_yaw_witness :
    sampleImu.calibrated = false ∧ millis 1500020 - sampleImu.start_t ≥ 1000 ∧
    (Imu.poll axisKalmanOps sampleLibm levelSample 1500000 1500010 1500020
      sampleImu).get_angles 2 = 0 :=
  ⟨rfl, by decide,
   (poll_calibration_zeroes_yaw axisKalmanOps sampleLibm levelSample 1500000 1500010 1500020
      sampleImu rfl (by decide)).1⟩

/-- C9: for every `poll()` in which the accelerometer pitch and the previous
filtered pitch lie on opposite sides of the wrap, the filtered pitch returned
by `get_angles()` after the poll is the new accelerometer pitch exactly, the
pitch filter is reset to it by `setAngle` instead of being updated, and the
sample-to-sample change of filtered pitch is the accelerometer pitch minus the
previous filtered pitch. -/
theorem poll_wrap_sets_pitch {K : Type} (ops : KalmanOps K) (m : Libm) (s : Sample)
    (us1 us2 us3 : Int) (st : Imu K)
    (hw : (m.atan2 (-s.accX) s.accZ * RAD_TO_DEG < -90 ∧ st.kalAngleY > 90) ∨
      (m.atan2 (-s.accX) s.accZ * RAD_TO_DEG > 90 ∧ st.kalAngleY < -90)) :
    (Imu.poll ops m s us1 us2 us3 st).get_angles 1 = m.atan2 (-s.accX) s.accZ * RAD_TO_DEG ∧
    (Imu.poll ops m s us1 us2 us3 st).kalmanY =
      ops.setAngle st.kalmanY (m.atan2 (-s.accX) s.accZ * RAD_TO_DEG) ∧
    (Imu.poll ops m s us1 us2 us3 st).get_angles 1 - st.get_angles 1 =
      m.atan2 (-s.accX) s.accZ * RAD_TO_DEG - st.kalAngleY := by
  have h1 : (Imu.poll ops m s us1 us2 us3 st).get_angles 1 =
      m.atan2 (-s.accX) s.accZ * RAD_TO_DEG := by
    show (Imu.poll ops m s us1 us2 us3 st).kalAngleY = _
    rw [poll_kalAngleY, if_pos hw]
  refine ⟨h1, ?_, ?_⟩
  · rw [poll_kalmanY, if_pos hw]
  · rw [h1]; rfl

/-- Witness for C9: filtered pitch `-170` and an inverted sample, whose
accelerometer pitch is `180`. -/
theorem poll_wrap_sets_pitch_witness :
    sampleLibm.atan2 (-invertedSample.accX) invertedSample.accZ * RAD_TO_DEG = 180 ∧
    sampleImu.kalAngleY = -170 ∧
    (Imu.poll axisKalmanOps sampleLibm invertedSample 1500000 1500010 1500020
      sampleImu).get_angles 1 =
        sampleLibm.atan2 (-invertedSample.accX) invertedSample.accZ * RAD_TO_DEG :=
  ⟨by norm_num [sampleLibm, invertedSample, RAD_TO_DEG, PI], rfl,
   (poll_wrap_sets_pitch axisKalmanOps sampleLibm invertedSample 1500000 1500010 1500020
      sampleImu
      (Or.inr (by norm_num [sampleLibm, invertedSample, RAD_TO_DEG, PI, sampleImu]))).1⟩

/-- C10, the code at a failing input: bounds `[1000, 2000]`, hover thrust `1500`,
roll estimate `1` with roll rate `-100` (roll gain exactly zero), level pitch
at rest (pitch gain zero), height `5` and vertical speed `3` above
`maxUpSpeed = 2`.  For every cosine with `cos 0 = 1` and `0 < cos 1 < 3/4` and
every velocity error received from `getDifferenceVel()`, none of `rollPID`,
`pitchPID`, `heightPID` applies an update, and the value written to the
actuation sink for each motor is the unclamped baseline `1500 / cos 1`, above
`MAX_THRUST`. -/
theorem hold_writes_unclamped_baseline (cos : ℚ → ℚ) (h0 : cos 0 = 1) (hpos : 0 < cos 1)
    (hlt : cos 1 < 3 / 4) (v : Vec3) (i : Fin 4) :
    sampleConfig.MIN_THRUST ≤ sampleConfig.MAX_THRUST ∧
    (runIteration sampleConfig cos tiltedReadings v highDrone sampleController).1.thrustOut i =
      1500 / cos 1 ∧
    ¬ inBounds sampleConfig
      ((runIteration sampleConfig cos tiltedReadings v highDrone sampleController).1.thrustOut
        i) := by
  have e : (runIteration sampleConfig cos tiltedReadings v highDrone
      sampleController).1.thrustOut i = 1500 / cos 1 := by
    rw [runIteration_thrustOut _ _ _ _ _ _ rfl, hold_tilted_thrust, h0, mul_one]
  refine ⟨by norm_num [sampleConfig], e, ?_⟩
  rw [e]
  intro hb
  have h2 : 1500 / cos 1 ≤ 2000 := by simpa [sampleConfig] using hb.2
  rw [div_le_iff₀ hpos] at h2
  linarith

/-- Witness for C10: the degree-4 Taylor polynomial as cosine, whose value at
`1` is `13/24`, and the velocity error `diffSpeed` that `getDifferenceVel`
builds; motor 0 is sent `36000/13`. -/
theorem hold_writes_unclamped_baseline_witness :
    sampleLibm.cos 0 = 1 ∧ 0 < sampleLibm.cos 1 ∧ sampleLibm.cos 1 < 3 / 4 ∧
    ¬ inBounds sampleConfig
      ((runIteration sampleConfig sampleLibm.cos tiltedReadings
        (getDifferenceVel_diffSpeed highDrone) highDrone sampleController).1.thrustOut 0) :=
  ⟨by norm_num [sampleLibm], by norm_num [sampleLibm], by norm_num [sampleLibm],
   (hold_writes_unclamped_baseline sampleLibm.cos (by norm_num [sampleLibm])
      (by norm_num [sampleLibm]) (by norm_num [sampleLibm])
      (getDifferenceVel_diffSpeed highDrone) 0).2.2⟩

/-! ## Further lemmas -/

theorem bound_of_inBounds (cfg : Config) (x : ℚ) (h : inBounds cfg x) : bound cfg x = x := by
  unfold bound
  rw [if_neg (not_lt.mpr h.2), if_neg (not_lt.mpr h.1)]

theorem le_bound_scale (cfg : Config) (t g : ℚ) (ht : 0 ≤ t) (hb : inBounds cfg t)
    (hg : 0 ≤ g) : t ≤ bound cfg (t * (1 + g)) := by
  have hx : t ≤ t * (1 + g) := by nlinarith [mul_nonneg ht hg]
  unfold bound
  split_ifs with h1 h2
  · exact hb.2
  · exact absurd (lt_of_le_of_lt (le_trans hb.1 hx) h2) (lt_irrefl _)
  · exact hx

theorem uniformSigns_cast (i : Fin 4) : ((![1, 1, 1, 1] : Fin 4 → Int) i : ℚ) = 1 := by
  fin_cases i <;> simp

theorem poll_speed {K : Type} (ops : KalmanOps K) (m : Libm) (s : Sample)
    (us1 us2 us3 : Int) (st : Imu K) :
    (Imu.poll ops m s us1 us2 us3 st).speed =
      Function.update
        (Function.update
          (Function.update st.speed 1
            (st.speed 1 + s.accX * (((us1 - st.timer : Int) : ℚ) / 1000000)))
          2 (st.speed 2 + s.accY * (((us1 - st.timer : Int) : ℚ) / 1000000)))
        3 (st.speed 3 + (s.accZ - 981 / 100) * (((us1 - st.timer : Int) : ℚ) / 1000000)) := by
  funext n
  simp [Imu.poll, Imu.pitchStep_eq, Imu.calibrate_eq, Imu.resetGyroX_eq, Imu.resetGyroY_eq,
    Imu.integrateSpeed, Function.update_apply]

/-- C11, the code at a failing input: from a zero velocity vector, with sample
`(accX, accY, accZ) = (100, 200, 16384)` and `dt = 0.01`, `poll()` writes
`speed[1]`, `speed[2]` and `speed[3]`: `get_speed()` gives `(0, 1, 2)`, not
`(1, 2, 163.7419)`, and the gravity-compensated increment `163.7419` lands in
the cell past the end of the three-component vector. -/
theorem poll_speed_index_shift :
    sampleImu.get_speed = ![0, 0, 0] ∧
    (((1500000 - sampleImu.timer : Int) : ℚ) / 1000000) = 1 / 100 ∧
    (Imu.poll axisKalmanOps sampleLibm movingSample 1500000 1500010 1500020
      sampleImu).get_speed = ![0, 1, 2] ∧
    (Imu.poll axisKalmanOps sampleLibm movingSample 1500000 1500010 1500020
      sampleImu).speed 3 = 1637419 / 10000 ∧
    (Imu.poll axisKalmanOps sampleLibm movingSample 1500000 1500010 1500020
      sampleImu).get_speed ≠
        ![0 + movingSample.accX * (1 / 100), 0 + movingSample.accY * (1 / 100),
          0 + (movingSample.accZ - 981 / 100) * (1 / 100)] := by
  have hs : (Imu.poll axisKalmanOps sampleLibm movingSample 1500000 1500010 1500020
      sampleImu).get_speed = ![0, 1, 2] := by
    unfold Imu.get_speed
    rw [poll_speed]
    norm_num [Function.update, sampleImu, movingSample]
  refine ⟨?_, ?_, hs, ?_, ?_⟩
  · simp [Imu.get_speed, sampleImu]
  · norm_num [sampleImu]
  · rw [poll_speed]
    norm_num [Function.update, sampleImu, movingSample]
  · rw [hs]
    intro h
    have h0 := congrFun h 0
    norm_num [movingSample] at h0

/-- C12: in `heightPID`, whenever the vertical speed is `≤ -maxDownSpeed`, or the
vertical acceleration is `≤ -maxDownAcceleration` while the vertical speed is
negative, the computed gain `g` (the PD sum
`absoluteDirection[2] * Kp + differenceVelocity[2] * Kd`, or the override
`Kp * (safetyHeight - height)` below the safety height, times `masterGain`) is
recorded, and the thrust after the call is `updateReferenceThrust` applied to
the thrust before with gain `|g|` and signs `[1,1,1,1]`, whatever the sign of
`g`: motor `i` becomes the bounded `thrust[i] * (1 + |g|)`; and a motor whose
thrust is non-negative and within `[MIN_THRUST, MAX_THRUST]` does not
decrease. -/
theorem heightPID_braking_uses_abs_gain (cfg : Config) (d : Drone) (imu : ImuReadings)
    (a v : Vec3) (fc : FlightController)
    (hb : d.zSpeed ≤ -cfg.maxDownSpeed ∨
      (imu.acceleration 2 ≤ -cfg.maxDownAcceleration ∧ d.zSpeed < 0)) :
    (heightPID cfg d imu a v fc).pidGains.Height =
      ((if d.height < cfg.safetyHeight ∧ d.distanceToLandingSpot > cfg.landingPrecision then
          cfg.pidHeight 0 * (cfg.safetyHeight - d.height)
        else a 2 * cfg.pidHeight 0 + v 2 * cfg.pidHeight 1) * cfg.masterGain) ∧
    (heightPID cfg d imu a v fc).thrust =
      (updateReferenceThrust cfg
        |((if d.height < cfg.safetyHeight ∧ d.distanceToLandingSpot > cfg.landingPrecision then
          cfg.pidHeight 0 * (cfg.safetyHeight - d.height)
        else a 2 * cfg.pidHeight 0 + v 2 * cfg.pidHeight 1) * cfg.masterGain)|
        ![1, 1, 1, 1] fc).thrust ∧
    (∀ i, (heightPID cfg d imu a v fc).thrust i =
      bound cfg (fc.thrust i * (1 +
        |((if d.height < cfg.safetyHeight ∧ d.distanceToLandingSpot > cfg.landingPrecision then
          cfg.pidHeight 0 * (cfg.safetyHeight - d.height)
        else a 2 * cfg.pidHeight 0 + v 2 * cfg.pidHeight 1) * cfg.masterGain)|))) ∧
    (∀ i, 0 ≤ fc.thrust i → inBounds cfg (fc.thrust i) →
      fc.thrust i ≤ (heightPID cfg d imu a v fc).thrust i) := by
  have hm : movingDownTooFast cfg d imu := hb
  have hg : (heightPID cfg d imu a v fc).pidGains.Height =
      ((if d.height < cfg.safetyHeight ∧ d.distanceToLandingSpot > cfg.landingPrecision then
          cfg.pidHeight 0 * (cfg.safetyHeight - d.height)
        else a 2 * cfg.pidHeight 0 + v 2 * cfg.pidHeight 1) * cfg.masterGain) := by
    rw [heightPID_gain]; rfl
  have ht : ∀ i, (heightPID cfg d imu a v fc).thrust i =
      bound cfg (fc.thrust i * (1 +
        |((if d.height < cfg.safetyHeight ∧ d.distanceToLandingSpot > cfg.landingPrecision then
          cfg.pidHeight 0 * (cfg.safetyHeight - d.height)
        else a 2 * cfg.pidHeight 0 + v 2 * cfg.pidHeight 1) * cfg.masterGain)|)) := by
    intro i
    rw [heightPID_thrust, if_pos hm, hg]
  refine ⟨hg, ?_, ht, fun i h0 hin => ?_⟩
  · funext i
    rw [ht, updateReferenceThrust_thrust, uniformSigns_cast, mul_one]
  · rw [ht]
    exact le_bound_scale cfg _ _ h0 hin (abs_nonneg _)

/-- Witness for C12: the sample vehicle above the safety height, sinking at
`3 ≥ maxDownSpeed = 2`, with PD sum `-1/20`: the computed gain is `-1/10`, the
gain applied is `1/10`, and motor 0 goes from `1500` up to `1650`. -/
theorem heightPID_braking_uses_abs_gain_witness :
    sinkingDrone.zSpeed ≤ -sampleConfig.maxDownSpeed ∧
    (heightPID sampleConfig sinkingDrone sampleReadings ![0, 0, -1 / 20] ![0, 0, 0]
      sampleController).pidGains.Height = -1 / 10 ∧
    sampleController.thrust 0 = 1500 ∧
    (heightPID sampleConfig sinkingDrone sampleReadings ![0, 0, -1 / 20] ![0, 0, 0]
      sampleController).thrust 0 = 1650 := by
  have h := heightPID_braking_uses_abs_gain sampleConfig sinkingDrone sampleReadings
    ![0, 0, -1 / 20] ![0, 0, 0] sampleController
    (Or.inl (by norm_num [sinkingDrone, sampleConfig, sampleDrone]))
  refine ⟨by norm_num [sinkingDrone, sampleConfig, sampleDrone], ?_, ?_, ?_⟩
  · rw [h.1]
    norm_num [sinkingDrone, sampleConfig, sampleDrone]
  · simp [sampleController]
  · rw [h.2.2.1 0]
    norm_num [sinkingDrone, sampleConfig, sampleDrone, sampleController, bound, abs_of_neg]

theorem poll_compAngleY {K : Type} (ops : KalmanOps K) (m : Libm) (s : Sample)
    (us1 us2 us3 : Int) (st : Imu K) :
    (Imu.poll ops m s us1 us2 us3 st).compAngleY =
      93 / 100 *
        ((if (m.atan2 (-s.accX) s.accZ * RAD_TO_DEG < -90 ∧ st.kalAngleY > 90) ∨
            (m.atan2 (-s.accX) s.accZ * RAD_TO_DEG > 90 ∧ st.kalAngleY < -90) then
          m.atan2 (-s.accX) s.accZ * RAD_TO_DEG
         else st.compAngleY) + s.gyroY / 131 * (((us1 - st.timer : Int) : ℚ) / 1000000)) +
      7 / 100 * (m.atan2 (-s.accX) s.accZ * RAD_TO_DEG) := by
  simp [Imu.poll, Imu.pitchStep_eq, Imu.calibrate_eq, Imu.resetGyroX_eq, Imu.resetGyroY_eq,
    Imu.integrateSpeed]

theorem poll_gyroYangle {K : Type} (ops : KalmanOps K) (m : Libm) (s : Sample)
    (us1 us2 us3 : Int) (st : Imu K) :
    (Imu.poll ops m s us1 us2 us3 st).gyroYangle =
      (if (if (m.atan2 (-s.accX) s.accZ * RAD_TO_DEG < -90 ∧ st.kalAngleY > 90) ∨
              (m.atan2 (-s.accX) s.accZ * RAD_TO_DEG > 90 ∧ st.kalAngleY < -90) then
            m.atan2 (-s.accX) s.accZ * RAD_TO_DEG
           else st.gyroYangle) + s.gyroY / 131 * (((us1 - st.timer : Int) : ℚ) / 1000000)
            < -180 ∨
          (if (m.atan2 (-s.accX) s.accZ * RAD_TO_DEG < -90 ∧ st.kalAngleY > 90) ∨
              (m.atan2 (-s.accX) s.accZ * RAD_TO_DEG > 90 ∧ st.kalAngleY < -90) then
            m.atan2 (-s.accX) s.accZ * RAD_TO_DEG
           else st.gyroYangle) + s.gyroY / 131 * (((us1 - st.timer : Int) : ℚ) / 1000000)
            > 180 then
        (Imu.poll ops m s us1 us2 us3 st).kalAngleY
       else
        (if (m.atan2 (-s.accX) s.accZ * RAD_TO_DEG < -90 ∧ st.kalAngleY > 90) ∨
              (m.atan2 (-s.accX) s.accZ * RAD_TO_DEG > 90 ∧ st.kalAngleY < -90) then
            m.atan2 (-s.accX) s.accZ * RAD_TO_DEG
           else st.gyroYangle) + s.gyroY / 131 * (((us1 - st.timer : Int) : ℚ) / 1000000)) := by
  rw [poll_kalAngleY]
  simp [Imu.poll, Imu.pitchStep_eq, Imu.calibrate_eq, Imu.resetGyroX_eq, Imu.resetGyroY_eq,
    Imu.integrateSpeed]

/-- C13 as stated fails: filtered pitch `-170`, an inverted sample
(accelerometer pitch `180`, so the wrap guard fires) with pitch rate `-1`
degree per second and `dt = 0.01`: at the end of the poll the gyro-integrated
pitch is `179.99` and the complementary pitch `179.9907`, not `180`. -/
theorem poll_wrap_reset_integrated_counterexample :
    sampleLibm.atan2 (-invertedTurningSample.accX) invertedTurningSample.accZ * RAD_TO_DEG
      = 180 ∧
    sampleImu.kalAngleY = -170 ∧
    (Imu.poll axisKalmanOps sampleLibm invertedTurningSample 1500000 1500010 1500020
      sampleImu).gyroYangle = 17999 / 100 ∧
    (Imu.poll axisKalmanOps sampleLibm invertedTurningSample 1500000 1500010 1500020
      sampleImu).compAngleY = 1799907 / 10000 ∧
    ¬ ((Imu.poll axisKalmanOps sampleLibm invertedTurningSample 1500000 1500010 1500020
        sampleImu).compAngleY =
          sampleLibm.atan2 (-invertedTurningSample.accX) invertedTurningSample.accZ * RAD_TO_DEG ∧
      (Imu.poll axisKalmanOps sampleLibm invertedTurningSample 1500000 1500010 1500020
        sampleImu).gyroYangle =
          sampleLibm.atan2 (-invertedTurningSample.accX) invertedTurningSample.accZ *
            RAD_TO_DEG) := by
  have hp : sampleLibm.atan2 (-invertedTurningSample.accX) invertedTurningSample.accZ *
      RAD_TO_DEG = 180 := by
    norm_num [sampleLibm, invertedTurningSample, RAD_TO_DEG, PI]
  have hg : (Imu.poll axisKalmanOps sampleLibm invertedTurningSample 1500000 1500010 1500020
      sampleImu).gyroYangle = 17999 / 100 := by
    rw [poll_gyroYangle, hp]
    norm_num [sampleImu, invertedTurningSample]
  have hc : (Imu.poll axisKalmanOps sampleLibm invertedTurningSample 1500000 1500010 1500020
      sampleImu).compAngleY = 1799907 / 10000 := by
    rw [poll_compAngleY, hp]
    norm_num [sampleImu, invertedTurningSample]
  refine ⟨hp, rfl, hg, hc, ?_⟩
  rw [hg, hc, hp]
  norm_num

/-- C13 amended: for every `poll()` in which the pitch wrap guard fires, at the
end of that poll the complementary-filter pitch state is
`0.93 * (pitch + gyroYrate * dt) + 0.07 * pitch` and the gyro-integrated pitch
state is `pitch + gyroYrate * dt`, or the accelerometer pitch itself when that
sum lies outside `[-180, 180]`, where `pitch` is the new accelerometer pitch;
both equal the accelerometer pitch when `gyroYrate * dt = 0`. -/
theorem poll_wrap_reset_then_integrated {K : Type} (ops : KalmanOps K) (m : Libm) (s : Sample)
    (us1 us2 us3 : Int) (st : Imu K)
    (hw : (m.atan2 (-s.accX) s.accZ * RAD_TO_DEG < -90 ∧ st.kalAngleY > 90) ∨
      (m.atan2 (-s.accX) s.accZ * RAD_TO_DEG > 90 ∧ st.kalAngleY < -90)) :
    (Imu.poll ops m s us1 us2 us3 st).compAngleY =
      93 / 100 * (m.atan2 (-s.accX) s.accZ * RAD_TO_DEG +
        s.gyroY / 131 * (((us1 - st.timer : Int) : ℚ) / 1000000)) +
      7 / 100 * (m.atan2 (-s.accX) s.accZ * RAD_TO_DEG) ∧
    (Imu.poll ops m s us1 us2 us3 st).gyroYangle =
      (if m.atan2 (-s.accX) s.accZ * RAD_TO_DEG +
            s.gyroY / 131 * (((us1 - st.timer : Int) : ℚ) / 1000000) < -180 ∨
          m.atan2 (-s.accX) s.accZ * RAD_TO_DEG +
            s.gyroY / 131 * (((us1 - st.timer : Int) : ℚ) / 1000000) > 180 then
        m.atan2 (-s.accX) s.accZ * RAD_TO_DEG
       else m.atan2 (-s.accX) s.accZ * RAD_TO_DEG +
            s.gyroY / 131 * (((us1 - st.timer : Int) : ℚ) / 1000000)) ∧
    (s.gyroY / 131 * (((us1 - st.timer : Int) : ℚ) / 1000000) = 0 →
      (Imu.poll ops m s us1 us2 us3 st).compAngleY = m.atan2 (-s.accX) s.accZ * RAD_TO_DEG ∧
      (Imu.poll ops m s us1 us2 us3 st).gyroYangle = m.atan2 (-s.accX) s.accZ * RAD_TO_DEG) := by
  have hc := poll_compAngleY ops m s us1 us2 us3 st
  have hg := poll_gyroYangle ops m s us1 us2 us3 st
  rw [poll_kalAngleY] at hg
  simp only [if_pos hw] at hc hg
  refine ⟨hc, hg, fun h0 => ?_⟩
  rw [hc, hg, h0, add_zero]
  refine ⟨by ring, ?_⟩
  split_ifs <;> rfl

/-- Witness for C13 (amended): filtered pitch `-170` and the inverted sample
with pitch rate `-1` degree per second. -/
theorem poll_wrap_reset_then_integrated_witness :
    sampleLibm.atan2 (-invertedTurningSample.accX) invertedTurningSample.accZ * RAD_TO_DEG
      > 90 ∧
    sampleImu.kalAngleY < -90 ∧
    (Imu.poll axisKalmanOps sampleLibm invertedTurningSample 1500000 1500010 1500020
      sampleImu).compAngleY =
      93 / 100 *
        (sampleLibm.atan2 (-invertedTurningSample.accX) invertedTurningSample.accZ * RAD_TO_DEG +
          invertedTurningSample.gyroY / 131 *
            (((1500000 - sampleImu.timer : Int) : ℚ) / 1000000)) +
      7 / 100 *
        (sampleLibm.atan2 (-invertedTurningSample.accX) invertedTurningSample.accZ *
          RAD_TO_DEG) :=
  ⟨by norm_num [sampleLibm, invertedTurningSample, RAD_TO_DEG, PI],
   by norm_num [sampleImu],
   (poll_wrap_reset_then_integrated axisKalmanOps sampleLibm invertedTurningSample 1500000
      1500010 1500020 sampleImu
      (Or.inr (by norm_num [sampleLibm, invertedTurningSample, RAD_TO_DEG, PI, sampleImu]))).1⟩

/-- C14: the order of per-axis thrust updates affects the result.  With bounds
`[1000, 2000]`, thrust `[1500,1500,1500,1500]` and gains `0.5` and `0.5`,
`updateReferenceThrust` for roll (`[1,-1,-1,1]`) then pitch (`[-1,-1,1,1]`)
gives a thrust vector different from pitch then roll: motor 0 ends at `1000`
one way and `1500` the other. -/
theorem update_order_matters :
    ∃ (thrust : Vec4) (g1 g2 : ℚ),
      (∀ i, inBounds sampleConfig (thrust i)) ∧
      (updateReferenceThrust sampleConfig g2 ![-1, -1, 1, 1]
        (updateReferenceThrust sampleConfig g1 ![1, -1, -1, 1]
          { sampleController with thrust := thrust })).thrust ≠
      (updateReferenceThrust sampleConfig g1 ![1, -1, -1, 1]
        (updateReferenceThrust sampleConfig g2 ![-1, -1, 1, 1]
          { sampleController with thrust := thrust })).thrust := by
  refine ⟨![1500, 1500, 1500, 1500], 1 / 2, 1 / 2, ?_, ?_⟩
  · intro i
    fin_cases i <;> norm_num [inBounds, sampleConfig]
  · intro h
    have h0 := congrFun h 0
    rw [updateReferenceThrust_thrust, updateReferenceThrust_thrust,
      updateReferenceThrust_thrust, updateReferenceThrust_thrust] at h0
    norm_num [bound, sampleConfig] at h0

/-- C15: in `heightPID`, when neither braking condition holds (vertical speed
`> -maxDownSpeed`, and not (vertical acceleration `≤ -maxDownAcceleration` with
vertical speed `< 0`)), the computed gain `g` (the PD sum
`absoluteDirection[2] * Kp + differenceVelocity[2] * Kd`, or the override
`Kp * (safetyHeight - height)` below the safety height, times `masterGain`) is
recorded, and: if the vertical speed is `≤ maxUpSpeed`, the thrust after the
call is `updateReferenceThrust(g, [1,1,1,1])` applied to the thrust before for
every non-zero `g` (motor `i` becomes the bounded `thrust[i] * (1 + g)`) and
is unchanged for `g = 0`; if the vertical speed is `> maxUpSpeed`, the thrust
is unchanged for every `g`. -/
theorem heightPID_within_envelope (cfg : Config) (d : Drone) (imu : ImuReadings)
    (a v : Vec3) (fc : FlightController)
    (h1 : d.zSpeed > -cfg.maxDownSpeed)
    (h2 : ¬ (imu.acceleration 2 ≤ -cfg.maxDownAcceleration ∧ d.zSpeed < 0)) :
    (heightPID cfg d imu a v fc).pidGains.Height =
      ((if d.height < cfg.safetyHeight ∧ d.distanceToLandingSpot > cfg.landingPrecision then
          cfg.pidHeight 0 * (cfg.safetyHeight - d.height)
        else a 2 * cfg.pidHeight 0 + v 2 * cfg.pidHeight 1) * cfg.masterGain) ∧
    (d.zSpeed ≤ cfg.maxUpSpeed →
      ((if d.height < cfg.safetyHeight ∧ d.distanceToLandingSpot > cfg.landingPrecision then
          cfg.pidHeight 0 * (cfg.safetyHeight - d.height)
        else a 2 * cfg.pidHeight 0 + v 2 * cfg.pidHeight 1) * cfg.masterGain) ≠ 0 →
      (heightPID cfg d imu a v fc).thrust =
        (updateReferenceThrust cfg
          ((if d.height < cfg.safetyHeight ∧ d.distanceToLandingSpot > cfg.landingPrecision then
          cfg.pidHeight 0 * (cfg.safetyHeight - d.height)
        else a 2 * cfg.pidHeight 0 + v 2 * cfg.pidHeight 1) * cfg.masterGain)
          ![1, 1, 1, 1] fc).thrust ∧
      ∀ i, (heightPID cfg d imu a v fc).thrust i =
        bound cfg (fc.thrust i * (1 +
          ((if d.height < cfg.safetyHeight ∧ d.distanceToLandingSpot > cfg.landingPrecision then
          cfg.pidHeight 0 * (cfg.safetyHeight - d.height)
        else a 2 * cfg.pidHeight 0 + v 2 * cfg.pidHeight 1) * cfg.masterGain)))) ∧
    (d.zSpeed ≤ cfg.maxUpSpeed →
      ((if d.height < cfg.safetyHeight ∧ d.distanceToLandingSpot > cfg.landingPrecision then
          cfg.pidHeight 0 * (cfg.safetyHeight - d.height)
        else a 2 * cfg.pidHeight 0 + v 2 * cfg.pidHeight 1) * cfg.masterGain) = 0 →
      (heightPID cfg d imu a v fc).thrust = fc.thrust) ∧
    (d.zSpeed > cfg.maxUpSpeed → (heightPID cfg d imu a v fc).thrust = fc.thrust) := by
  have hm : ¬ movingDownTooFast cfg d imu := by
    unfold movingDownTooFast
    rintro (h | h)
    · exact absurd h (not_le.mpr h1)
    · exact h2 h
  have hg : (heightPID cfg d imu a v fc).pidGains.Height =
      ((if d.height < cfg.safetyHeight ∧ d.distanceToLandingSpot > cfg.landingPrecision then
          cfg.pidHeight 0 * (cfg.safetyHeight - d.height)
        else a 2 * cfg.pidHeight 0 + v 2 * cfg.pidHeight 1) * cfg.masterGain) := by
    rw [heightPID_gain]; rfl
  refine ⟨hg, fun hu hne => ?_, fun hu hz => ?_, fun hu => ?_⟩
  · have hc : d.zSpeed ≤ cfg.maxUpSpeed ∧
        ((heightPID cfg d imu a v fc).pidGains.Height > 0 ∨
          ((heightPID cfg d imu a v fc).pidGains.Height < 0 ∧ d.zSpeed ≥ -cfg.maxDownSpeed)) := by
      refine ⟨hu, ?_⟩
      rw [hg]
      rcases lt_or_gt_of_ne hne with hlt | hgt
      · exact Or.inr ⟨hlt, le_of_lt h1⟩
      · exact Or.inl hgt
    have ht : ∀ i, (heightPID cfg d imu a v fc).thrust i =
        bound cfg (fc.thrust i * (1 +
          ((if d.height < cfg.safetyHeight ∧ d.distanceToLandingSpot > cfg.landingPrecision then
          cfg.pidHeight 0 * (cfg.safetyHeight - d.height)
        else a 2 * cfg.pidHeight 0 + v 2 * cfg.pidHeight 1) * cfg.masterGain))) := by
      intro i
      rw [heightPID_thrust, if_neg hm, if_pos hc, hg]
    refine ⟨?_, ht⟩
    funext i
    rw [ht, updateReferenceThrust_thrust, uniformSigns_cast, mul_one]
  · funext i
    rw [heightPID_thrust, if_neg hm]
    have hc : ¬ (d.zSpeed ≤ cfg.maxUpSpeed ∧
        ((heightPID cfg d imu a v fc).pidGains.Height > 0 ∨
          ((heightPID cfg d imu a v fc).pidGains.Height < 0 ∧ d.zSpeed ≥ -cfg.maxDownSpeed))) := by
      rw [hg, hz]
      rintro ⟨_, h | h⟩
      · exact lt_irrefl _ h
      · exact lt_irrefl _ h.1
    rw [if_neg hc]
  · funext i
    rw [heightPID_thrust, if_neg hm]
    have hc : ¬ (d.zSpeed ≤ cfg.maxUpSpeed ∧
        ((heightPID cfg d imu a v fc).pidGains.Height > 0 ∨
          ((heightPID cfg d imu a v fc).pidGains.Height < 0 ∧ d.zSpeed ≥ -cfg.maxDownSpeed))) :=
      fun h => absurd h.1 (not_le.mpr hu)
    rw [if_neg hc]

/-- Witness for C15: the sample vehicle above the safety height, at rest
vertically, with PD sum `-1/20`: the computed gain `-1/10` is applied and motor
0 goes from `1500` down to `1350`. -/
theorem heightPID_within_envelope_witness :
    hoverDrone.zSpeed > -sampleConfig.maxDownSpeed ∧
    ¬ (sampleReadings.acceleration 2 ≤ -sampleConfig.maxDownAcceleration ∧
      hoverDrone.zSpeed < 0) ∧
    hoverDrone.zSpeed ≤ sampleConfig.maxUpSpeed ∧
    (heightPID sampleConfig hoverDrone sampleReadings ![0, 0, -1 / 20] ![0, 0, 0]
      sampleController).pidGains.Height = -1 / 10 ∧
    sampleController.thrust 0 = 1500 ∧
    (heightPID sampleConfig hoverDrone sampleReadings ![0, 0, -1 / 20] ![0, 0, 0]
      sampleController).thrust 0 = 1350 := by
  have h := heightPID_within_envelope sampleConfig hoverDrone sampleReadings
    ![0, 0, -1 / 20] ![0, 0, 0] sampleController
    (by norm_num [hoverDrone, sampleConfig, sampleDrone])
    (by norm_num [hoverDrone, sampleConfig, sampleDrone, sampleReadings])
  refine ⟨by norm_num [hoverDrone, sampleConfig, sampleDrone],
    by norm_num [hoverDrone, sampleConfig, sampleDrone, sampleReadings],
    by norm_num [hoverDrone, sampleConfig, sampleDrone], ?_, ?_, ?_⟩
  · rw [h.1]
    norm_num [hoverDrone, sampleConfig, sampleDrone]
  · simp [sampleController]
  · rw [(h.2.1 (by norm_num [hoverDrone, sampleConfig, sampleDrone])
      (by norm_num [hoverDrone, sampleConfig, sampleDrone])).2 0]
    norm_num [hoverDrone, sampleConfig, sampleDrone, sampleController, bound]

theorem resetGyro_guard {K : Type} (X : Imu K) :
    ((-180 ≤ X.resetGyroX.resetGyroY.gyroXangle ∧ X.resetGyroX.resetGyroY.gyroXangle ≤ 180) ∨
      X.resetGyroX.resetGyroY.gyroXangle = X.resetGyroX.resetGyroY.kalAngleX) ∧
    ((-180 ≤ X.resetGyroX.resetGyroY.gyroYangle ∧ X.resetGyroX.resetGyroY.gyroYangle ≤ 180) ∨
      X.resetGyroX.resetGyroY.gyroYangle = X.resetGyroX.resetGyroY.kalAngleY) := by
  rw [Imu.resetGyroY_eq, Imu.resetGyroX_eq]
  simp only [Imu.resetGyroYFields_gyroXangle, Imu.resetGyroYFields_gyroYangle,
    Imu.resetGyroYFields_kalAngleX, Imu.resetGyroYFields_kalAngleY,
    Imu.resetGyroXFields_gyroXangle, Imu.resetGyroXFields_gyroYangle,
    Imu.resetGyroXFields_kalAngleX, Imu.resetGyroXFields_kalAngleY]
  constructor
  · by_cases hx : X.gyroXangle < -180 ∨ X.gyroXangle > 180
    · right; rw [if_pos hx]
    · left
      rw [if_neg hx]
      exact ⟨not_lt.mp (fun h => hx (Or.inl h)), not_lt.mp (fun h => hx (Or.inr h))⟩
  · by_cases hy : X.gyroYangle < -180 ∨ X.gyroYangle > 180
    · right; rw [if_pos hy]
    · left
      rw [if_neg hy]
      exact ⟨not_lt.mp (fun h => hy (Or.inl h)), not_lt.mp (fun h => hy (Or.inr h))⟩

theorem poll_kalAngleX {K : Type} (ops : KalmanOps K) (m : Libm) (s : Sample)
    (us1 us2 us3 : Int) (st : Imu K) :
    (Imu.poll ops m s us1 us2 us3 st).kalAngleX =
      (ops.getAngle st.kalmanX
        (m.atan (s.accY / m.sqrt (s.accX * s.accX + s.accZ * s.accZ)) * RAD_TO_DEG)
        (if |(Imu.poll ops m s us1 us2 us3 st).kalAngleY| > 90 then -(s.gyroX / 131)
         else s.gyroX / 131)
        (((us1 - st.timer : Int) : ℚ) / 1000000)).1 := by
  rw [poll_kalAngleY]
  simp [Imu.poll, Imu.pitchStep_eq, Imu.calibrate_eq, Imu.resetGyroX_eq, Imu.resetGyroY_eq,
    Imu.integrateSpeed]

/-- C16: after every `poll()`, the unfiltered gyro-integrated roll angle lies in
`[-180, 180]` or equals the roll estimate of `get_angles()`, and the
gyro-integrated pitch angle lies in `[-180, 180]` or equals the pitch estimate
of `get_angles()`; these estimates are the ones this poll produced (the roll
filter's output, and the pitch filter's output or the wrap-reset value). -/
theorem poll_gyro_angles_guarded {K : Type} (ops : KalmanOps K) (m : Libm) (s : Sample)
    (us1 us2 us3 : Int) (st : Imu K) :
    ((-180 ≤ (Imu.poll ops m s us1 us2 us3 st).gyroXangle ∧
        (Imu.poll ops m s us1 us2 us3 st).gyroXangle ≤ 180) ∨
      (Imu.poll ops m s us1 us2 us3 st).gyroXangle =
        (Imu.poll ops m s us1 us2 us3 st).get_angles 0) ∧
    ((-180 ≤ (Imu.poll ops m s us1 us2 us3 st).gyroYangle ∧
        (Imu.poll ops m s us1 us2 us3 st).gyroYangle ≤ 180) ∨
      (Imu.poll ops m s us1 us2 us3 st).gyroYangle =
        (Imu.poll ops m s us1 us2 us3 st).get_angles 1) ∧
    (Imu.poll ops m s us1 us2 us3 st).get_angles 0 =
      (ops.getAngle st.kalmanX
        (m.atan (s.accY / m.sqrt (s.accX * s.accX + s.accZ * s.accZ)) * RAD_TO_DEG)
        (if |(Imu.poll ops m s us1 us2 us3 st).kalAngleY| > 90 then -(s.gyroX / 131)
         else s.gyroX / 131)
        (((us1 - st.timer : Int) : ℚ) / 1000000)).1 ∧
    (Imu.poll ops m s us1 us2 us3 st).get_angles 1 =
      (if (m.atan2 (-s.accX) s.accZ * RAD_TO_DEG < -90 ∧ st.kalAngleY > 90) ∨
          (m.atan2 (-s.accX) s.accZ * RAD_TO_DEG > 90 ∧ st.kalAngleY < -90) then
        m.atan2 (-s.accX) s.accZ * RAD_TO_DEG
       else (ops.getAngle st.kalmanY (m.atan2 (-s.accX) s.accZ * RAD_TO_DEG) (s.gyroY / 131)
          (((us1 - st.timer : Int) : ℚ) / 1000000)).1) := by
  have hg : ((-180 ≤ (Imu.poll ops m s us1 us2 us3 st).gyroXangle ∧
        (Imu.poll ops m s us1 us2 us3 st).gyroXangle ≤ 180) ∨
      (Imu.poll ops m s us1 us2 us3 st).gyroXangle =
        (Imu.poll ops m s us1 us2 us3 st).kalAngleX) ∧
    ((-180 ≤ (Imu.poll ops m s us1 us2 us3 st).gyroYangle ∧
        (Imu.poll ops m s us1 us2 us3 st).gyroYangle ≤ 180) ∨
      (Imu.poll ops m s us1 us2 us3 st).gyroYangle =
        (Imu.poll ops m s us1 us2 us3 st).kalAngleY) := by
    unfold Imu.poll
    exact resetGyro_guard _
  exact ⟨hg.1, hg.2, poll_kalAngleX ops m s us1 us2 us3 st,
    poll_kalAngleY ops m s us1 us2 us3 st⟩

theorem pollTrace_length {K : Type} (ops : KalmanOps K) (m : Libm)
    (calls : List (Sample × Int × Int × Int)) :
    ∀ st : Imu K, (Imu.pollTrace ops m calls st).length = calls.length := by
  induction calls with
  | nil => intro st; rfl
  | cons c cs ih => intro st; simp [Imu.pollTrace, ih]

theorem pollTrace_calibrated {K : Type} (ops : KalmanOps K) (m : Libm)
    (calls : List (Sample × Int × Int × Int)) :
    ∀ st : Imu K, st.calibrated = true →
      ∀ s ∈ Imu.pollTrace ops m calls st, s.calibrated = true ∧ s.yawOffset = st.yawOffset := by
  induction calls with
  | nil => intro st _ s hs; simp [Imu.pollTrace] at hs
  | cons c cs ih =>
    intro st hc s hs
    have hn : ¬ ((!st.calibrated) = true ∧ millis c.2.2.2 - st.start_t ≥ 1000) := by
      simp [hc]
    have h1 : (Imu.poll ops m c.1 c.2.1 c.2.2.1 c.2.2.2 st).calibrated = true := by
      rw [poll_calibrated, if_neg hn, hc]
    have h2 : (Imu.poll ops m c.1 c.2.1 c.2.2.1 c.2.2.2 st).yawOffset = st.yawOffset := by
      rw [poll_yawOffset, if_neg hn]
    simp only [Imu.pollTrace, List.mem_cons] at hs
    rcases hs with rfl | hs
    · exact ⟨h1, h2⟩
    · have h3 := ih _ h1 s hs
      exact ⟨h3.1, h3.2.trans h2⟩

/-- C17: yaw calibration is irreversible.  From any estimator state whose
calibrated flag is set, after each `poll()` of any sequence (one state per
call), for all samples and clock readings, the flag is still set and the
latched yaw offset has the value it had. -/
theorem calibration_is_irreversible {K : Type} (ops : KalmanOps K) (m : Libm)
    (calls : List (Sample × Int × Int × Int)) (st : Imu K) (hc : st.calibrated = true) :
    (Imu.pollTrace ops m calls st).length = calls.length ∧
    ∀ s ∈ Imu.pollTrace ops m calls st, s.calibrated = true ∧ s.yawOffset = st.yawOffset :=
  ⟨pollTrace_length ops m calls st, pollTrace_calibrated ops m calls st hc⟩

/-- Witness for C17: the calibrated sample estimator polled twice, the second
time long after the calibration window. -/
theorem calibration_is_irreversible_witness :
    calibratedImu.calibrated = true ∧
    ∀ s ∈ Imu.pollTrace axisKalmanOps sampleLibm
        [(levelSample, 1500000, 1500010, 1500020), (movingSample, 9000000, 9000010, 9000020)]
        calibratedImu,
      s.calibrated = true ∧ s.yawOffset = calibratedImu.yawOffset :=
  ⟨rfl,
   (calibration_is_irreversible axisKalmanOps sampleLibm
      [(levelSample, 1500000, 1500010, 1500020), (movingSample, 9000000, 9000010, 9000020)]
      calibratedImu rfl).2⟩

theorem rollPID_log (cfg : Config) (da dr : Vec3) (fc : FlightController) :
    (rollPID cfg da dr fc).log = fc.log ++
      [if (rollPID cfg da dr fc).pidGains.Roll > 0 ∧ dr 0 ≤ cfg.maxRollRotationalVel then
        "Roll-R"
       else if (rollPID cfg da dr fc).pidGains.Roll < 0 ∧ dr 0 ≥ -cfg.maxRollRotationalVel then
        "Roll-L"
       else "Roll out of bounds set by maxRollRotationalVel"] := by
  rw [rollPID_gain]
  unfold rollPID
  dsimp only
  split_ifs <;> simp [updateReferenceThrust_log, FlightController.logLine, List.filter]

theorem pitchPID_log (cfg : Config) (da dr : Vec3) (fc : FlightController) :
    (pitchPID cfg da dr fc).log = fc.log ++
      [if (pitchPID cfg da dr fc).pidGains.Pitch > 0 ∧ dr 1 ≤ cfg.maxPitchRotationalVel then
        "Forward"
       else if (pitchPID cfg da dr fc).pidGains.Pitch < 0 ∧
          dr 1 ≥ -cfg.maxPitchRotationalVel then
        "Backward"
       else "Pitch out of bounds set by maxPitchRotationalVel"] := by
  rw [pitchPID_gain]
  unfold pitchPID
  dsimp only
  split_ifs <;> simp [updateReferenceThrust_log, FlightController.logLine, List.filter]

/-- C18: `rollPID` and `pitchPID` decide on the rate error passed in.  With
`gain = masterGain * (Kp * angleError + Kd * rateError)`, the gain is recorded
in `pidGains` for the axis in all cases, and the thrust after the call is that
of `updateReferenceThrust(gain, axisSigns)` applied to the thrust before when
`(gain > 0 and rateError ≤ maxRate)` or `(gain < 0 and rateError ≥ -maxRate)`,
and is the thrust before in every other case; the line logged is the update's
in those two cases and the out-of-bounds line in every other case. -/
theorem attitude_update_decided_by_rate_error (cfg : Config) (da dr : Vec3)
    (fc : FlightController) :
    (rollPID cfg da dr fc).pidGains.Roll =
      cfg.masterGain * (cfg.pidRoll 0 * da 0 + cfg.pidRoll 1 * dr 0) ∧
    (rollPID cfg da dr fc).thrust =
      (if (cfg.masterGain * (cfg.pidRoll 0 * da 0 + cfg.pidRoll 1 * dr 0) > 0 ∧
            dr 0 ≤ cfg.maxRollRotationalVel) ∨
          (cfg.masterGain * (cfg.pidRoll 0 * da 0 + cfg.pidRoll 1 * dr 0) < 0 ∧
            dr 0 ≥ -cfg.maxRollRotationalVel) then
        (updateReferenceThrust cfg
          (cfg.masterGain * (cfg.pidRoll 0 * da 0 + cfg.pidRoll 1 * dr 0)) ![1, -1, -1, 1]
          fc).thrust
      else fc.thrust) ∧
    (rollPID cfg da dr fc).log = fc.log ++
      [if cfg.masterGain * (cfg.pidRoll 0 * da 0 + cfg.pidRoll 1 * dr 0) > 0 ∧
          dr 0 ≤ cfg.maxRollRotationalVel then "Roll-R"
       else if cfg.masterGain * (cfg.pidRoll 0 * da 0 + cfg.pidRoll 1 * dr 0) < 0 ∧
          dr 0 ≥ -cfg.maxRollRotationalVel then "Roll-L"
       else "Roll out of bounds set by maxRollRotationalVel"] ∧
    (pitchPID cfg da dr fc).pidGains.Pitch =
      cfg.masterGain * (cfg.pidPitch 0 * da 1 + cfg.pidPitch 1 * dr 1) ∧
    (pitchPID cfg da dr fc).thrust =
      (if (cfg.masterGain * (cfg.pidPitch 0 * da 1 + cfg.pidPitch 1 * dr 1) > 0 ∧
            dr 1 ≤ cfg.maxPitchRotationalVel) ∨
          (cfg.masterGain * (cfg.pidPitch 0 * da 1 + cfg.pidPitch 1 * dr 1) < 0 ∧
            dr 1 ≥ -cfg.maxPitchRotationalVel) then
        (updateReferenceThrust cfg
          (cfg.masterGain * (cfg.pidPitch 0 * da 1 + cfg.pidPitch 1 * dr 1)) ![-1, -1, 1, 1]
          fc).thrust
      else fc.thrust) ∧
    (pitchPID cfg da dr fc).log = fc.log ++
      [if cfg.masterGain * (cfg.pidPitch 0 * da 1 + cfg.pidPitch 1 * dr 1) > 0 ∧
          dr 1 ≤ cfg.maxPitchRotationalVel then "Forward"
       else if cfg.masterGain * (cfg.pidPitch 0 * da 1 + cfg.pidPitch 1 * dr 1) < 0 ∧
          dr 1 ≥ -cfg.maxPitchRotationalVel then "Backward"
       else "Pitch out of bounds set by maxPitchRotationalVel"] := by
  have hr : (rollPID cfg da dr fc).pidGains.Roll =
      cfg.masterGain * (cfg.pidRoll 0 * da 0 + cfg.pidRoll 1 * dr 0) := by
    rw [rollPID_gain]; ring
  have hp : (pitchPID cfg da dr fc).pidGains.Pitch =
      cfg.masterGain * (cfg.pidPitch 0 * da 1 + cfg.pidPitch 1 * dr 1) := by
    rw [pitchPID_gain]; ring
  refine ⟨hr, ?_, ?_, hp, ?_, ?_⟩
  · funext i
    rw [rollPID_thrust, hr]
    by_cases hc : (cfg.masterGain * (cfg.pidRoll 0 * da 0 + cfg.pidRoll 1 * dr 0) > 0 ∧
            dr 0 ≤ cfg.maxRollRotationalVel) ∨
          (cfg.masterGain * (cfg.pidRoll 0 * da 0 + cfg.pidRoll 1 * dr 0) < 0 ∧
            dr 0 ≥ -cfg.maxRollRotationalVel)
    · rw [if_pos hc, if_pos hc, updateReferenceThrust_thrust]
    · rw [if_neg hc, if_neg hc]
  · rw [rollPID_log, hr]
  · funext i
    rw [pitchPID_thrust, hp]
    by_cases hc : (cfg.masterGain * (cfg.pidPitch 0 * da 1 + cfg.pidPitch 1 * dr 1) > 0 ∧
            dr 1 ≤ cfg.maxPitchRotationalVel) ∨
          (cfg.masterGain * (cfg.pidPitch 0 * da 1 + cfg.pidPitch 1 * dr 1) < 0 ∧
            dr 1 ≥ -cfg.maxPitchRotationalVel)
    · rw [if_pos hc, if_pos hc, updateReferenceThrust_thrust]
    · rw [if_neg hc, if_neg hc]
  · rw [pitchPID_log, hp]

/-- C19: two `updateReferenceThrust` calls commute when no clamping occurs.  If
for every motor the products `thrust[i] * (1 + g1*s1[i])`,
`thrust[i] * (1 + g2*s2[i])` and `thrust[i] * (1 + g1*s1[i]) * (1 + g2*s2[i])`
lie within `[MIN_THRUST, MAX_THRUST]`, then applying `(g1, s1)` then `(g2, s2)`
gives the same thrust vector as `(g2, s2)` then `(g1, s1)`, namely
`thrust[i] * (1 + g1*s1[i]) * (1 + g2*s2[i])`. -/
theorem updates_commute_without_clamping (cfg : Config) (g1 g2 : ℚ) (s1 s2 : Fin 4 → Int)
    (fc : FlightController)
    (h1 : ∀ i, inBounds cfg (fc.thrust i * (1 + g1 * (s1 i : ℚ))))
    (h2 : ∀ i, inBounds cfg (fc.thrust i * (1 + g2 * (s2 i : ℚ))))
    (h12 : ∀ i, inBounds cfg
      (fc.thrust i * (1 + g1 * (s1 i : ℚ)) * (1 + g2 * (s2 i : ℚ)))) :
    (updateReferenceThrust cfg g2 s2 (updateReferenceThrust cfg g1 s1 fc)).thrust =
      (updateReferenceThrust cfg g1 s1 (updateReferenceThrust cfg g2 s2 fc)).thrust ∧
    ∀ i, (updateReferenceThrust cfg g2 s2 (updateReferenceThrust cfg g1 s1 fc)).thrust i =
      fc.thrust i * (1 + g1 * (s1 i : ℚ)) * (1 + g2 * (s2 i : ℚ)) := by
  have ha : ∀ i, (updateReferenceThrust cfg g2 s2 (updateReferenceThrust cfg g1 s1 fc)).thrust i =
      fc.thrust i * (1 + g1 * (s1 i : ℚ)) * (1 + g2 * (s2 i : ℚ)) := by
    intro i
    rw [updateReferenceThrust_thrust, updateReferenceThrust_thrust,
      bound_of_inBounds cfg _ (h1 i), bound_of_inBounds cfg _ (h12 i)]
  have hb : ∀ i, (updateReferenceThrust cfg g1 s1 (updateReferenceThrust cfg g2 s2 fc)).thrust i =
      fc.thrust i * (1 + g1 * (s1 i : ℚ)) * (1 + g2 * (s2 i : ℚ)) := by
    intro i
    have h21 : inBounds cfg (fc.thrust i * (1 + g2 * (s2 i : ℚ)) * (1 + g1 * (s1 i : ℚ))) := by
      have e : fc.thrust i * (1 + g2 * (s2 i : ℚ)) * (1 + g1 * (s1 i : ℚ)) =
          fc.thrust i * (1 + g1 * (s1 i : ℚ)) * (1 + g2 * (s2 i : ℚ)) := by ring
      rw [e]; exact h12 i
    rw [updateReferenceThrust_thrust, updateReferenceThrust_thrust,
      bound_of_inBounds cfg _ (h2 i), bound_of_inBounds cfg _ h21]
    ring
  refine ⟨?_, ha⟩
  funext i
  rw [ha, hb]

/-- Witness for C19: bounds `[1000, 2000]`, thrust `1500` on every motor, the
roll and pitch patterns with gains `0.1` and `0.1`. -/
theorem updates_commute_without_clamping_witness :
    (∀ i, inBounds sampleConfig
      (sampleController.thrust i * (1 + 1 / 10 * ((![1, -1, -1, 1] : Fin 4 → Int) i : ℚ)))) ∧
    (updateReferenceThrust sampleConfig (1 / 10) ![-1, -1, 1, 1]
      (updateReferenceThrust sampleConfig (1 / 10) ![1, -1, -1, 1] sampleController)).thrust =
    (updateReferenceThrust sampleConfig (1 / 10) ![1, -1, -1, 1]
      (updateReferenceThrust sampleConfig (1 / 10) ![-1, -1, 1, 1] sampleController)).thrust :=
  ⟨by intro i; fin_cases i <;> norm_num [inBounds, sampleConfig, sampleController],
   (updates_commute_without_clamping sampleConfig (1 / 10) (1 / 10) ![1, -1, -1, 1]
      ![-1, -1, 1, 1] sampleController
      (by intro i; fin_cases i <;> norm_num [inBounds, sampleConfig, sampleController])
      (by intro i; fin_cases i <;> norm_num [inBounds, sampleConfig, sampleController])
      (by intro i; fin_cases i <;> norm_num [inBounds, sampleConfig, sampleController])).1⟩

/-- C20: below the safety height the height controller never commands less
thrust.  For `Kp_height > 0`, `masterGain > 0`, height `< safetyHeight` and
`distanceToLandingSpot > landingPrecision`, every motor whose thrust is
non-negative and within `[MIN_THRUST, MAX_THRUST]` has, after `heightPID`, a
thrust at least its thrust before, for every vertical speed, vertical
acceleration and argument value. -/
theorem heightPID_below_safety_never_reduces (cfg : Config) (d : Drone) (imu : ImuReadings)
    (a v : Vec3) (fc : FlightController)
    (hk : cfg.pidHeight 0 > 0) (hmg : cfg.masterGain > 0)
    (h1 : d.height < cfg.safetyHeight) (h2 : d.distanceToLandingSpot > cfg.landingPrecision)
    (i : Fin 4) (h0 : 0 ≤ fc.thrust i) (hin : inBounds cfg (fc.thrust i)) :
    fc.thrust i ≤ (heightPID cfg d imu a v fc).thrust i := by
  have hg : (heightPID cfg d imu a v fc).pidGains.Height =
      cfg.pidHeight 0 * (cfg.safetyHeight - d.height) * cfg.masterGain := by
    rw [heightPID_gain, if_pos ⟨h1, h2⟩]
  have hpos : 0 ≤ cfg.pidHeight 0 * (cfg.safetyHeight - d.height) * cfg.masterGain :=
    mul_nonneg (mul_nonneg (le_of_lt hk) (le_of_lt (sub_pos.mpr h1))) (le_of_lt hmg)
  rw [heightPID_thrust, hg]
  split_ifs
  · exact le_bound_scale cfg _ _ h0 hin (abs_nonneg _)
  · exact le_bound_scale cfg _ _ h0 hin hpos
  · exact le_refl _

/-- Witness for C20: the sample vehicle at height `0.5` under safety height `1`,
motor 0 at `1500`. -/
theorem heightPID_below_safety_never_reduces_witness :
    sampleConfig.pidHeight 0 > 0 ∧ sampleConfig.masterGain > 0 ∧
    sampleDrone.height < sampleConfig.safetyHeight ∧
    sampleDrone.distanceToLandingSpot > sampleConfig.landingPrecision ∧
    0 ≤ sampleController.thrust 0 ∧ inBounds sampleConfig (sampleController.thrust 0) ∧
    sampleController.thrust 0 ≤
      (heightPID sampleConfig sampleDrone sampleReadings ![0, 0, -9] ![0, 0, -9]
        sampleController).thrust 0 :=
  ⟨by norm_num [sampleConfig], by norm_num [sampleConfig],
   by norm_num [sampleConfig, sampleDrone], by norm_num [sampleConfig, sampleDrone],
   by norm_num [sampleController], by norm_num [inBounds, sampleConfig, sampleController],
   heightPID_below_safety_never_reduces sampleConfig sampleDrone sampleReadings ![0, 0, -9]
     ![0, 0, -9] sampleController (by norm_num [sampleConfig]) (by norm_num [sampleConfig])
     (by norm_num [sampleConfig, sampleDrone]) (by norm_num [sampleConfig, sampleDrone]) 0
     (by norm_num [sampleController]) (by norm_num [inBounds, sampleConfig, sampleController])⟩

end Robotica
